import Mathlib

/-!
Shallow embedding of the cork-sim market simulator (PM0World/cork-sim).

Sources embedded:
* `src/python-model-main/simulator/wallet.py` — `Wallet`
* `src/simulator/amm.py`                      — `AMM`, `UniswapV2AMM`
* `src/python-model-main/simulator/psm.py`    — `PegStabilityModule`
* `src/simulator/blockchain.py`               — borrow ledger, yield distribution,
                                                debt check of the `Blockchain` class
* `src/simulator/event_manager.py`            — depeg and yield-adjustment events
* `src/simulator/vault.py`                    — `Vault`

Modelling conventions:
* Python floats are modelled as exact rationals `ℚ`.  Python's `math.sqrt` and the
  float power `** 0.5` produce irrational values; wherever the source uses them the
  embedding takes the square-root routine as an explicit function argument `sq`, and
  theorems that depend on its value hypothesise exactness (`(sq q) ^ 2 = q`) at the
  points used, which float sqrt satisfies up to rounding.
* Python raises `ValueError` with a message; each raise site is mapped to the
  corresponding constructor of `Err` following the spec's error taxonomy.
* Python mutates objects in place, and an exception aborts the rest of a routine
  while keeping the mutations made so far.  Stateful operations therefore return
  `Except Err α ×` (their final state), where the state on an error is the partially
  mutated one, exactly as in the source.
* Python dicts keyed by strings are modelled as `String → Option ℚ` (the `Option`
  tracks key presence, which the source tests with `in`), dicts keyed by wallet
  objects as maps from the wallet's owner string (owners are distinct in all states
  considered), and dicts iterated in insertion order as association lists.
* The abstract method `_calculate_swap_out_amount` and `price_of_one_token_in_eth`
  of the `AMM` base class are modelled as function-valued fields `calcOut` and
  `priceFn`; the `UniswapV2AMM` subclass instantiates them with `uniswapCalcOut`
  and `uniswapPrice`.  The `YieldSpaceAMM` subclass computes with float powers
  `r ** (1 ± d)`, which take irrational values; its formulas are therefore not
  representable in exact arithmetic, and the theorems below either hold for every
  value of `calcOut`/`priceFn` or concern the constant-product variant.
-/

set_option autoImplicit false

namespace CorkSim

/-- Error taxonomy of the spec (section 7); each constructor is the name the spec
gives to the corresponding `ValueError` raise site of the source.  `keyError`
models a Python `KeyError` from direct dict indexing, `assertionFailed` a failed
`assert`, and `loopFuelExhausted` is returned when the fuel bound modelling a
source `while` loop is exhausted (the Python loop would still be running). -/
inductive Err where
  | badAmount
  | insufficientBalance
  | insufficientReserve
  | emptyPool
  | wrongPhase
  | insufficientLiquidity
  | overRepay
  | outstandingDebt
  | unknownToken
  | keyError
  | assertionFailed
  | loopFuelExhausted
  deriving DecidableEq, Repr

/-- Update a string-keyed map at one key. -/
def mapSet (m : String → Option ℚ) (k : String) (v : ℚ) : String → Option ℚ :=
  fun s => if s = k then some v else m s

/-- Update a block-indexed ledger (`defaultdict(float)` keyed by block number). -/
def blockSet (m : ℕ → ℚ) (k : ℕ) (v : ℚ) : ℕ → ℚ :=
  fun n => if n = k then v else m n

/-- `Wallet` of `python-model-main/simulator/wallet.py`: ETH balance, token
balances and LP-token balances, each keyed by a symbol string.  The global
wallet registry of the source is not part of a wallet's own state. -/
structure Wallet where
  owner : String
  eth_balance : ℚ
  token_balances : String → Option ℚ
  lpt_balances : String → Option ℚ

namespace Wallet

/-- `Wallet.deposit_eth`: negative amounts raise, the amount is added. -/
def deposit_eth (w : Wallet) (amount : ℚ) : Except Err Wallet :=
  if amount < 0 then .error .badAmount
  else .ok { w with eth_balance := w.eth_balance + amount }

/-- `Wallet.withdraw_eth`: only withdrawals above the balance raise (the source
has no sign check here). -/
def withdraw_eth (w : Wallet) (amount : ℚ) : Except Err Wallet :=
  if amount > w.eth_balance then .error .insufficientBalance
  else .ok { w with eth_balance := w.eth_balance - amount }

/-- `Wallet.deposit_token`: creates the key if absent. -/
def deposit_token (w : Wallet) (token : String) (amount : ℚ) : Except Err Wallet :=
  if amount < 0 then .error .badAmount
  else
    let tb := mapSet w.token_balances token ((w.token_balances token).getD 0 + amount)
    .ok { w with token_balances := tb }

/-- `Wallet.withdraw_token`: raises when the key is absent or the amount exceeds
the balance. -/
def withdraw_token (w : Wallet) (token : String) (amount : ℚ) : Except Err Wallet :=
  match w.token_balances token with
  | none => .error .insufficientBalance
  | some b => if amount > b then .error .insufficientBalance
      else .ok { w with token_balances := mapSet w.token_balances token (b - amount) }

/-- `Wallet.token_balance`: `dict.get` with default `0.0`. -/
def token_balance (w : Wallet) (token : String) : ℚ :=
  (w.token_balances token).getD 0

/-- `Wallet.deposit_lpt`. -/
def deposit_lpt (w : Wallet) (pool : String) (amount : ℚ) : Except Err Wallet :=
  if amount < 0 then .error .badAmount
  else
    let lb := mapSet w.lpt_balances pool ((w.lpt_balances pool).getD 0 + amount)
    .ok { w with lpt_balances := lb }

/-- `Wallet.withdraw_lpt`. -/
def withdraw_lpt (w : Wallet) (pool : String) (amount : ℚ) : Except Err Wallet :=
  match w.lpt_balances pool with
  | none => .error .insufficientBalance
  | some b => if amount > b then .error .insufficientBalance
      else .ok { w with lpt_balances := mapSet w.lpt_balances pool (b - amount) }

/-- `Wallet.lpt_balance`: `dict.get` with default `0.0`. -/
def lpt_balance (w : Wallet) (pool : String) : ℚ :=
  (w.lpt_balances pool).getD 0

end Wallet

/-- Swap direction strings `'eth_to_token'` / `'token_to_eth'` of `amm.py`. -/
inductive SwapDir where
  | ethToToken
  | tokenToEth
  deriving DecidableEq, Repr

/-- State of the `AMM` base class of `simulator/amm.py`.  `calcOut` is the
abstract `_calculate_swap_out_amount(amount_in, reserve_in, reserve_out)` and
`priceFn` the abstract `price_of_one_token_in_eth` as a function of the two
reserves; subclasses fix these fields.  `lpt_holders` is keyed by the holding
wallet's owner string, the fee ledgers by block number. -/
structure AMM where
  name : String
  reserve_eth : ℚ
  reserve_token : ℚ
  total_lpt_supply : ℚ
  fee : ℚ
  lpt_holders : String → ℚ
  fee_accumulated_eth : ℕ → ℚ
  fee_accumulated_token : ℕ → ℚ
  calcOut : ℚ → ℚ → ℚ → ℚ
  priceFn : ℚ → ℚ → ℚ

/-- `UniswapV2AMM._calculate_swap_out_amount`: the constant-product formula
`amount_in * reserve_out / (reserve_in + amount_in)`. -/
def uniswapCalcOut (amount_in reserve_in reserve_out : ℚ) : ℚ :=
  amount_in * reserve_out / (reserve_in + amount_in)

/-- `UniswapV2AMM.price_of_one_token_in_eth`: `reserve_eth / reserve_token`.
The source returns `float('inf')` when `reserve_token == 0`; that case is
modelled as `0` and is excluded by the positivity hypotheses of every theorem
that uses the price. -/
def uniswapPrice (reserve_eth reserve_token : ℚ) : ℚ :=
  if reserve_token = 0 then 0 else reserve_eth / reserve_token

namespace AMM

/-- Spot price of the pool, `price_of_one_token_in_eth` on the current reserves. -/
def price (a : AMM) : ℚ :=
  a.priceFn a.reserve_eth a.reserve_token

/-- `AMM.swap_eth_for_token` at block `blk` (the source reads the class attribute
`Blockchain.current_block` for the fee ledger): the output is computed from the
fee-reduced input, the full input is added to the ETH reserve, and the fee is
credited to the per-block ETH fee ledger.  Returns the token amount received. -/
def swap_eth_for_token (blk : ℕ) (w : Wallet) (a : AMM) (amount_eth : ℚ) :
    Except Err ℚ × Wallet × AMM :=
  let fee_deducted_eth := amount_eth * (1 - a.fee)
  let amount_token := a.calcOut fee_deducted_eth a.reserve_eth a.reserve_token
  match w.withdraw_eth amount_eth with
  | .error e => (.error e, w, a)
  | .ok w1 =>
    match w1.deposit_token a.name amount_token with
    | .error e => (.error e, w1, a)
    | .ok w2 =>
      (.ok amount_token, w2,
        { a with
          reserve_eth := a.reserve_eth + amount_eth
          reserve_token := a.reserve_token - amount_token
          fee_accumulated_eth :=
            blockSet a.fee_accumulated_eth blk
              (a.fee_accumulated_eth blk + amount_eth * a.fee) })

/-- `AMM.swap_token_for_eth` at block `blk`; mirror image of
`swap_eth_for_token`, crediting the per-block token fee ledger. -/
def swap_token_for_eth (blk : ℕ) (w : Wallet) (a : AMM) (amount_token : ℚ) :
    Except Err ℚ × Wallet × AMM :=
  let fee_deducted_token := amount_token * (1 - a.fee)
  let amount_eth := a.calcOut fee_deducted_token a.reserve_token a.reserve_eth
  match w.withdraw_token a.name amount_token with
  | .error e => (.error e, w, a)
  | .ok w1 =>
    match w1.deposit_eth amount_eth with
    | .error e => (.error e, w1, a)
    | .ok w2 =>
      (.ok amount_eth, w2,
        { a with
          reserve_token := a.reserve_token + amount_token
          reserve_eth := a.reserve_eth - amount_eth
          fee_accumulated_token :=
            blockSet a.fee_accumulated_token blk
              (a.fee_accumulated_token blk + amount_token * a.fee) })

/-- `AMM._calculate_lpt_mint`.  `sq` models the float square root `** 0.5` used
on the first liquidity provision. -/
def calculate_lpt_mint (sq : ℚ → ℚ) (a : AMM) (amount_eth amount_token : ℚ) : ℚ :=
  if a.total_lpt_supply = 0 then sq (amount_eth * amount_token)
  else
    min ((amount_eth / a.reserve_eth) * a.total_lpt_supply)
      ((amount_token / a.reserve_token) * a.total_lpt_supply)

/-- `AMM.add_liquidity`: withdraw both sides from the wallet, mint LP tokens
(recorded in the wallet under the pool's `name`, e.g. `CT_X` for the CT/ETH
pool), update supply, holder map and reserves. -/
def add_liquidity (sq : ℚ → ℚ) (w : Wallet) (a : AMM) (amount_eth amount_token : ℚ) :
    Except Err Unit × Wallet × AMM :=
  match w.withdraw_eth amount_eth with
  | .error e => (.error e, w, a)
  | .ok w1 =>
    match w1.withdraw_token a.name amount_token with
    | .error e => (.error e, w1, a)
    | .ok w2 =>
      let lpt_to_mint := a.calculate_lpt_mint sq amount_eth amount_token
      match w2.deposit_lpt a.name lpt_to_mint with
      | .error e => (.error e, w2, a)
      | .ok w3 =>
        (.ok (), w3,
          { a with
            total_lpt_supply := a.total_lpt_supply + lpt_to_mint
            lpt_holders := fun o =>
              if o = w.owner then a.lpt_holders w.owner + lpt_to_mint else a.lpt_holders o
            reserve_eth := a.reserve_eth + amount_eth
            reserve_token := a.reserve_token + amount_token })

/-- `AMM.remove_liquidity`: burn `lpt_amount` LP tokens and pay out the pro-rata
share of both reserves; returns `(share_token, share_eth)`. -/
def remove_liquidity (w : Wallet) (a : AMM) (lpt_amount : ℚ) :
    Except Err (ℚ × ℚ) × Wallet × AMM :=
  let share_eth := (lpt_amount / a.total_lpt_supply) * a.reserve_eth
  let share_token := (lpt_amount / a.total_lpt_supply) * a.reserve_token
  let a1 : AMM :=
    { a with
      reserve_eth := a.reserve_eth - share_eth
      reserve_token := a.reserve_token - share_token
      total_lpt_supply := a.total_lpt_supply - lpt_amount }
  match w.deposit_eth share_eth with
  | .error e => (.error e, w, a1)
  | .ok w1 =>
    match w1.deposit_token a.name share_token with
    | .error e => (.error e, w1, a1)
    | .ok w2 =>
      match w2.withdraw_lpt a.name lpt_amount with
      | .error e => (.error e, w2, a1)
      | .ok w3 =>
        (.ok (share_token, share_eth), w3,
          { a1 with lpt_holders := fun o =>
              if o = w.owner then a.lpt_holders w.owner - lpt_amount else a.lpt_holders o })

/-- `AMM.calculate_slippage`: relative shortfall of the actual output against the
output expected at the pre-trade spot price, both computed on the fee-reduced
input.  (`YieldSpaceAMM` overrides this with the same formula specialised to its
own `calcOut`.) -/
def calculate_slippage (a : AMM) (amount_in : ℚ) (dir : SwapDir) : ℚ :=
  let reserve_in := match dir with | .ethToToken => a.reserve_eth | .tokenToEth => a.reserve_token
  let reserve_out := match dir with | .ethToToken => a.reserve_token | .tokenToEth => a.reserve_eth
  let price_before := reserve_out / reserve_in
  let amount_out_expected := amount_in * (1 - a.fee) * price_before
  let amount_out_actual := a.calcOut (amount_in * (1 - a.fee)) reserve_in reserve_out
  (amount_out_expected - amount_out_actual) / amount_out_expected

/-- `AMM.get_expected_output_amount`. -/
def get_expected_output_amount (a : AMM) (amount_in : ℚ) (dir : SwapDir) : ℚ :=
  let reserve_in := match dir with | .ethToToken => a.reserve_eth | .tokenToEth => a.reserve_token
  let reserve_out := match dir with | .ethToToken => a.reserve_token | .tokenToEth => a.reserve_eth
  a.calcOut (amount_in * (1 - a.fee)) reserve_in reserve_out

end AMM

/-- Coverage-token symbol of an LST symbol, the f-string `CT_{token_symbol}`. -/
def ctKey (sym : String) : String := "CT_" ++ sym

/-- Depeg-swap symbol of an LST symbol, the f-string `DS_{token_symbol}`. -/
def dsKey (sym : String) : String := "DS_" ++ sym

/-- `PegStabilityModule` of `python-model-main/simulator/psm.py`. -/
structure PSM where
  token_symbol : String
  expiry_block : ℕ
  eth_reserve : ℚ
  token_reserve : ℚ
  redemption_fee : ℚ
  repurchase_fee : ℚ
  total_redemption_fee : ℚ
  total_repurchase_fee : ℚ

namespace PSM

/-- `PegStabilityModule.deposit_eth`: burn `amount_eth` ETH from the wallet, mint
the same amount of CT and of DS to it, and grow the ETH reserve. -/
def deposit_eth (p : PSM) (w : Wallet) (amount_eth : ℚ) :
    Except Err Unit × Wallet × PSM :=
  if amount_eth ≤ 0 then (.error .badAmount, w, p)
  else
    match w.withdraw_eth amount_eth with
    | .error e => (.error e, w, p)
    | .ok w1 =>
      match w1.deposit_token (ctKey p.token_symbol) amount_eth with
      | .error e => (.error e, w1, p)
      | .ok w2 =>
        match w2.deposit_token (dsKey p.token_symbol) amount_eth with
        | .error e => (.error e, w2, p)
        | .ok w3 => (.ok (), w3, { p with eth_reserve := p.eth_reserve + amount_eth })

/-- `PegStabilityModule.redeem_with_ct_and_ds`: pre-expiry redemption against CT
and DS.  Note the order of the source: the phase, sign and balance checks come
first, then both tokens are withdrawn from the wallet, and only then is the ETH
reserve checked — so an `InsufficientReserve` failure keeps the withdrawal. -/
def redeem_with_ct_and_ds (p : PSM) (w : Wallet) (amount_tokens : ℚ)
    (current_block : ℕ) : Except Err ℚ × Wallet × PSM :=
  if current_block > p.expiry_block then (.error .wrongPhase, w, p)
  else if amount_tokens ≤ 0 then (.error .badAmount, w, p)
  else if w.token_balance (ctKey p.token_symbol) < amount_tokens ∨
      w.token_balance (dsKey p.token_symbol) < amount_tokens then
    (.error .insufficientBalance, w, p)
  else
    match w.withdraw_token (ctKey p.token_symbol) amount_tokens with
    | .error e => (.error e, w, p)
    | .ok w1 =>
      match w1.withdraw_token (dsKey p.token_symbol) amount_tokens with
      | .error e => (.error e, w1, p)
      | .ok w2 =>
        let fee_eth := amount_tokens * p.redemption_fee
        let net_eth := amount_tokens - fee_eth
        if net_eth > p.eth_reserve then (.error .insufficientReserve, w2, p)
        else
          match w2.deposit_eth net_eth with
          | .error e => (.error e, w2, p)
          | .ok w3 =>
            (.ok net_eth, w3,
              { p with
                eth_reserve := p.eth_reserve - net_eth
                token_reserve := p.token_reserve + amount_tokens
                total_redemption_fee := p.total_redemption_fee + fee_eth })

/-- `PegStabilityModule.redeem_with_token_and_ds`: same accounting as
`redeem_with_ct_and_ds` but burning the underlying token and DS. -/
def redeem_with_token_and_ds (p : PSM) (w : Wallet) (amount_tokens : ℚ)
    (current_block : ℕ) : Except Err ℚ × Wallet × PSM :=
  if current_block > p.expiry_block then (.error .wrongPhase, w, p)
  else if amount_tokens ≤ 0 then (.error .badAmount, w, p)
  else if w.token_balance p.token_symbol < amount_tokens ∨
      w.token_balance (dsKey p.token_symbol) < amount_tokens then
    (.error .insufficientBalance, w, p)
  else
    match w.withdraw_token p.token_symbol amount_tokens with
    | .error e => (.error e, w, p)
    | .ok w1 =>
      match w1.withdraw_token (dsKey p.token_symbol) amount_tokens with
      | .error e => (.error e, w1, p)
      | .ok w2 =>
        let fee_eth := amount_tokens * p.redemption_fee
        let net_eth := amount_tokens - fee_eth
        if net_eth > p.eth_reserve then (.error .insufficientReserve, w2, p)
        else
          match w2.deposit_eth net_eth with
          | .error e => (.error e, w2, p)
          | .ok w3 =>
            (.ok net_eth, w3,
              { p with
                eth_reserve := p.eth_reserve - net_eth
                token_reserve := p.token_reserve + amount_tokens
                total_redemption_fee := p.total_redemption_fee + fee_eth })

/-- `PegStabilityModule.redeem_with_ct_post_expiry`: after expiry only CT is
burnt; otherwise the accounting is identical. -/
def redeem_with_ct_post_expiry (p : PSM) (w : Wallet) (amount_tokens : ℚ)
    (current_block : ℕ) : Except Err ℚ × Wallet × PSM :=
  if current_block < p.expiry_block then (.error .wrongPhase, w, p)
  else if amount_tokens ≤ 0 then (.error .badAmount, w, p)
  else if w.token_balance (ctKey p.token_symbol) < amount_tokens then
    (.error .insufficientBalance, w, p)
  else
    match w.withdraw_token (ctKey p.token_symbol) amount_tokens with
    | .error e => (.error e, w, p)
    | .ok w1 =>
      let fee_eth := amount_tokens * p.redemption_fee
      let net_eth := amount_tokens - fee_eth
      if net_eth > p.eth_reserve then (.error .insufficientReserve, w1, p)
      else
        match w1.deposit_eth net_eth with
        | .error e => (.error e, w1, p)
        | .ok w2 =>
          (.ok net_eth, w2,
            { p with
              eth_reserve := p.eth_reserve - net_eth
              token_reserve := p.token_reserve + amount_tokens
              total_redemption_fee := p.total_redemption_fee + fee_eth })

/-- `PegStabilityModule.repurchase_token_and_ds`: spend `amount_eth` ETH, receive
`amount_eth * (1 - repurchase_fee)` each of the token and DS from the reserve. -/
def repurchase_token_and_ds (p : PSM) (w : Wallet) (amount_eth : ℚ) :
    Except Err ℚ × Wallet × PSM :=
  if amount_eth ≤ 0 then (.error .badAmount, w, p)
  else
    let fee_eth := amount_eth * p.repurchase_fee
    let net_eth := amount_eth - fee_eth
    let amount_tokens := net_eth
    if amount_tokens > p.token_reserve then (.error .insufficientReserve, w, p)
    else
      match w.withdraw_eth amount_eth with
      | .error e => (.error e, w, p)
      | .ok w1 =>
        match w1.deposit_token p.token_symbol amount_tokens with
        | .error e => (.error e, w1, p)
        | .ok w2 =>
          match w2.deposit_token (dsKey p.token_symbol) amount_tokens with
          | .error e => (.error e, w2, p)
          | .ok w3 =>
            (.ok amount_tokens, w3,
              { p with
                eth_reserve := p.eth_reserve + amount_eth
                token_reserve := p.token_reserve - amount_tokens
                total_repurchase_fee := p.total_repurchase_fee + fee_eth })

end PSM

/-- Add `d` to the entry of key `k` of an association list, appending the entry
at the end when the key is new — the behaviour of a Python dict under
`m[k] = m.get(k, 0.0) + d`, including iteration (insertion) order. -/
def alAdd (l : List (String × ℚ)) (k : String) (d : ℚ) : List (String × ℚ) :=
  match l with
  | [] => [(k, d)]
  | p :: rest => if p.1 = k then (p.1, p.2 + d) :: rest else p :: alAdd rest k d

/-- The engine-side state of the `Blockchain` class of `simulator/blockchain.py`
that the embedded routines touch: the current block, the ETH yield configuration,
the registered-token table (symbol with its effective `yield_per_block`, `0.0`
when the dict entry is absent as for CT/DS entries), and the borrow ledger.
`eth_yield` models the attribute that `EventManager._adjust_eth_yield` assigns
(`blockchain.eth_yield = percentage`), a distinct attribute from
`eth_yield_per_block`; it does not exist before the first such event, hence the
`Option`.  Per-wallet ledgers are keyed by the borrowing wallet's owner string. -/
structure Chain where
  current_block : ℕ
  eth_yield_per_block : ℚ
  eth_yield : Option ℚ
  tokens : List (String × ℚ)
  borrowed_eth : String → ℚ
  total_borrowed_eth : ℚ
  borrowed_token : String → String → ℚ
  total_borrowed_token : List (String × ℚ)

namespace Chain

/-- `Blockchain.borrow_eth`: grow the ledger and credit the wallet. -/
def borrow_eth (c : Chain) (w : Wallet) (amount_eth : ℚ) :
    Except Err Unit × Chain × Wallet :=
  if amount_eth ≤ 0 then (.error .badAmount, c, w)
  else
    let c1 : Chain :=
      { c with
        total_borrowed_eth := c.total_borrowed_eth + amount_eth
        borrowed_eth := fun o =>
          if o = w.owner then c.borrowed_eth w.owner + amount_eth else c.borrowed_eth o }
    match w.deposit_eth amount_eth with
    | .error e => (.error e, c1, w)
    | .ok w1 => (.ok (), c1, w1)

/-- `Blockchain.repay_eth`: the ledger is reduced before the wallet is debited,
exactly as in the source (so a failing withdrawal leaves the ledger reduced). -/
def repay_eth (c : Chain) (w : Wallet) (amount_eth : ℚ) :
    Except Err Unit × Chain × Wallet :=
  if c.borrowed_eth w.owner = 0 then (.error .overRepay, c, w)
  else if amount_eth > c.borrowed_eth w.owner then (.error .overRepay, c, w)
  else
    let c1 : Chain :=
      { c with
        total_borrowed_eth := c.total_borrowed_eth - amount_eth
        borrowed_eth := fun o =>
          if o = w.owner then c.borrowed_eth w.owner - amount_eth else c.borrowed_eth o }
    match w.withdraw_eth amount_eth with
    | .error e => (.error e, c1, w)
    | .ok w1 => (.ok (), c1, w1)

/-- `Blockchain.borrow_token`: the token must be registered; ledger and wallet
are adjusted in opposite directions. -/
def borrow_token (c : Chain) (w : Wallet) (token : String) (amount_token : ℚ) :
    Except Err Unit × Chain × Wallet :=
  if amount_token ≤ 0 then (.error .badAmount, c, w)
  else if ¬ c.tokens.any (fun q => q.1 == token) then (.error .unknownToken, c, w)
  else
    let c1 : Chain :=
      { c with
        borrowed_token := fun o t =>
          if o = w.owner ∧ t = token then c.borrowed_token w.owner token + amount_token
          else c.borrowed_token o t
        total_borrowed_token := alAdd c.total_borrowed_token token amount_token }
    match w.deposit_token token amount_token with
    | .error e => (.error e, c1, w)
    | .ok w1 => (.ok (), c1, w1)

/-- `Blockchain.repay_token`.  A per-wallet entry equal to `0` is treated as the
source's deleted entry (`del` on reaching zero), so repaying with no outstanding
borrow errors in both models. -/
def repay_token (c : Chain) (w : Wallet) (token : String) (amount_token : ℚ) :
    Except Err Unit × Chain × Wallet :=
  if amount_token ≤ 0 then (.error .badAmount, c, w)
  else if c.borrowed_token w.owner token = 0 then (.error .overRepay, c, w)
  else if amount_token > c.borrowed_token w.owner token then (.error .overRepay, c, w)
  else
    let c1 : Chain :=
      { c with
        borrowed_token := fun o t =>
          if o = w.owner ∧ t = token then c.borrowed_token w.owner token - amount_token
          else c.borrowed_token o t
        total_borrowed_token := alAdd c.total_borrowed_token token (-amount_token) }
    match w.withdraw_token token amount_token with
    | .error e => (.error e, c1, w)
    | .ok w1 => (.ok (), c1, w1)

/-- `Blockchain._check_borrowings_repaid`, run by `start_mining` at the end of
every block after all agents have acted: raise when `total_borrowed_eth > 0`, or
when any entry of `total_borrowed_token` is `> 0` — strict comparisons against
zero, with no epsilon. -/
def check_borrowings_repaid (c : Chain) : Except Err Unit :=
  if c.total_borrowed_eth > 0 then .error .outstandingDebt
  else if c.total_borrowed_token.any (fun q => decide (q.2 > 0)) then
    .error .outstandingDebt
  else .ok ()

/-- One wallet's token-yield accrual for one registered token inside
`Blockchain._distribute_yield`: mint `balance * yield_per_block` when positive. -/
def yield_token_step (w : Wallet) (t : String × ℚ) : Except Err Wallet :=
  let accrued := w.token_balance t.1 * t.2
  if accrued > 0 then w.deposit_token t.1 accrued else .ok w

/-- `Blockchain._distribute_yield` restricted to one wallet: every registered
token accrues `balance * yield_per_block`, then, when `eth_yield_per_block > 0`,
the ETH balance accrues `eth_balance * eth_yield_per_block`.  The source runs
this body for every wallet in the global registry. -/
def distribute_yield_wallet (c : Chain) (w : Wallet) : Except Err Wallet := do
  let w1 ← c.tokens.foldlM yield_token_step w
  if c.eth_yield_per_block > 0 then
    let accrued := w1.eth_balance * c.eth_yield_per_block
    if accrued > 0 then w1.deposit_eth accrued else pure w1
  else pure w1

end Chain

/-- `EventManager._adjust_eth_yield`: the handler of an `eth_yield_adjustment`
event assigns `blockchain.eth_yield = percentage` — a fresh attribute — and logs
the adjustment; it does not touch `eth_yield_per_block`, the attribute that
`_distribute_yield` reads. -/
def adjust_eth_yield (c : Chain) (percentage : ℚ) : Chain :=
  { c with eth_yield := some percentage }

/-- `EventManager._adjust_yield`: overwrite the token's `yield_per_block` with
the event's percentage (`blockchain.tokens[token]['yield_per_block'] = percentage`). -/
def adjust_yield (c : Chain) (token : String) (percentage : ℚ) : Chain :=
  { c with tokens := c.tokens.map (fun q => if q.1 = token then (q.1, percentage) else q) }

/-- `EventManager._depeg`: target price `current * (1 - percentage)`; solve the
constant-product invariant for the new reserves with `math.sqrt` (modelled by the
function argument `sq`), then realise the change through the ordinary swap path
using the manager's internal wallet, pre-funded with the side needed.  Returns
the manager wallet and the pool after the event. -/
def depeg (sq : ℚ → ℚ) (block_number : ℕ) (w : Wallet) (a : AMM) (percentage : ℚ) :
    Except Err Unit × Wallet × AMM :=
  let current_price := a.price
  let target_price := current_price * (1 - percentage)
  let x := a.reserve_eth
  let y := a.reserve_token
  let k := x * y
  let x_new := sq (k * target_price)
  let y_new := sq (k / target_price)
  let delta_x := x_new - x
  let delta_y := y_new - y
  if delta_y > 0 then
    match w.deposit_token a.name delta_y with
    | .error e => (.error e, w, a)
    | .ok w1 =>
      match AMM.swap_token_for_eth block_number w1 a delta_y with
      | (.error e, w2, a2) => (.error e, w2, a2)
      | (.ok _, w2, a2) => (.ok (), w2, a2)
  else if delta_x > 0 then
    match w.deposit_eth delta_x with
    | .error e => (.error e, w, a)
    | .ok w1 =>
      match AMM.swap_eth_for_token block_number w1 a delta_x with
      | (.error e, w2, a2) => (.error e, w2, a2)
      | (.ok _, w2, a2) => (.ok (), w2, a2)
  else (.ok (), w, a)

/-- Combined state touched by a `Vault` routine of `simulator/vault.py`: the
calling investor's wallet, the vault's own fields (`token_symbol`, the
`reserve_ct` ratio, its wallet, LP supply and holder map) and its collaborators
(the PSM, the CT/ETH and DS/ETH pools, the blockchain's ledger state).
`lp_holders` is keyed by the holding wallet's owner string. -/
structure VState where
  investor : Wallet
  vaultWallet : Wallet
  token_symbol : String
  reserve_ct : ℚ
  lp_token_supply : ℚ
  lp_holders : String → ℚ
  psm : PSM
  ct_eth_amm : AMM
  ds_eth_amm : AMM
  chain : Chain

namespace VState

/-- Reassemble a `VState` from updated components. -/
def pack (s : VState) (inv vw : Wallet) (p : PSM) (ctA dsA : AMM) (c : Chain) : VState :=
  { s with
    investor := inv
    vaultWallet := vw
    psm := p
    ct_eth_amm := ctA
    ds_eth_amm := dsA
    chain := c }

/-- `Vault._get_total_vault_value`: vault ETH, plus the DS balance at the DS/ETH
spot price, plus `(reserve_eth / total_lpt_supply)` of the CT/ETH pool times the
vault wallet's LP balance looked up under `self.token_symbol` — the LST symbol,
although the CT/ETH pool records its LP tokens under its own name
`CT_{token_symbol}`.  The division is exact rational division; the source's
`ZeroDivisionError` when the pool has no LP supply is not modelled and every
theorem below fixes a positive supply. -/
def get_total_vault_value (s : VState) : ℚ :=
  let eth_value := s.vaultWallet.eth_balance
  let ds_value_in_eth := s.ds_eth_amm.price * s.vaultWallet.token_balance (dsKey s.token_symbol)
  let ct_eth_lp_value_in_eth :=
    (s.ct_eth_amm.reserve_eth / s.ct_eth_amm.total_lpt_supply) *
      s.vaultWallet.lpt_balance s.token_symbol
  eth_value + ds_value_in_eth + ct_eth_lp_value_in_eth

/-- The total vault value as claim C2 words it: identical to
`get_total_vault_value` except that the third term values the LP shares the
vault wallet actually holds in the CT/ETH pool, i.e. the balance recorded under
the pool's name `CT_{token_symbol}`.  Stated for comparison with the source. -/
def total_vault_value_claim (s : VState) : ℚ :=
  let eth_value := s.vaultWallet.eth_balance
  let ds_value_in_eth := s.ds_eth_amm.price * s.vaultWallet.token_balance (dsKey s.token_symbol)
  let ct_eth_lp_value_in_eth :=
    (s.ct_eth_amm.reserve_eth / s.ct_eth_amm.total_lpt_supply) *
      s.vaultWallet.lpt_balance (ctKey s.token_symbol)
  eth_value + ds_value_in_eth + ct_eth_lp_value_in_eth

/-- `Vault._issue_lp_tokens`: first provider gets `amount_eth` shares, later
providers `amount_eth / total_vault_value * supply`; the shares are recorded in
the vault's holder map and in the wallet under `V_{token_symbol}`. -/
def issue_lp_tokens (s : VState) (w : Wallet) (amount_eth : ℚ) :
    Except Err Unit × VState × Wallet :=
  let total_vault_value := s.get_total_vault_value
  let lp_tokens_to_mint :=
    if s.lp_token_supply = 0 then amount_eth
    else (amount_eth / total_vault_value) * s.lp_token_supply
  let s1 : VState :=
    { s with
      lp_token_supply := s.lp_token_supply + lp_tokens_to_mint
      lp_holders := fun o =>
        if o = w.owner then s.lp_holders w.owner + lp_tokens_to_mint else s.lp_holders o }
  match w.deposit_lpt ("V_" ++ s.token_symbol) lp_tokens_to_mint with
  | .error e => (.error e, s1, w)
  | .ok w1 => (.ok (), s1, w1)

/-- `Vault._recursive_conversion`: repeatedly split the vault's ETH between a
PSM deposit (the `reserve_ct` share), a CT/ETH liquidity provision of the
remainder, and a sale of all DS just minted, until the ETH returned by the DS
sale drops below the `0.01` threshold.  The source's `while` loop is bounded by
`fuel`; `sq` models the float square root used by `add_liquidity` on a first
provision. -/
def recursive_conversion (sq : ℚ → ℚ) : ℕ → VState → ℚ → Except Err Unit × VState
  | fuel, s, amount_eth =>
    if amount_eth < 1 / 100 then (.ok (), s)
    else
      match fuel with
      | 0 => (.error .loopFuelExhausted, s)
      | fuel' + 1 =>
        let reserve_ct := amount_eth * s.reserve_ct
        match s.psm.deposit_eth s.vaultWallet reserve_ct with
        | (.error e, vw1, p1) => (.error e, { s with vaultWallet := vw1, psm := p1 })
        | (.ok _, vw1, p1) =>
          let ds_tokens := reserve_ct
          let remainder_eth := amount_eth - reserve_ct
          let share_of_ct_in_the_pool :=
            s.ct_eth_amm.reserve_token / (s.ct_eth_amm.reserve_token + s.ct_eth_amm.reserve_eth)
          let share_of_eth_in_the_pool := 1 - share_of_ct_in_the_pool
          let eth_for_amm := remainder_eth * share_of_eth_in_the_pool
          let ct_for_amm := remainder_eth - eth_for_amm
          match p1.deposit_eth vw1 ct_for_amm with
          | (.error e, vw2, p2) => (.error e, { s with vaultWallet := vw2, psm := p2 })
          | (.ok _, vw2, p2) =>
            match AMM.add_liquidity sq vw2 s.ct_eth_amm eth_for_amm ct_for_amm with
            | (.error e, vw3, ctA1) =>
              (.error e, { s with vaultWallet := vw3, psm := p2, ct_eth_amm := ctA1 })
            | (.ok _, vw3, ctA1) =>
              let ds_tokens := ds_tokens + ct_for_amm
              if ds_tokens > 0 then
                match AMM.swap_token_for_eth s.chain.current_block vw3 s.ds_eth_amm ds_tokens with
                | (.error e, vw4, dsA1) =>
                  (.error e,
                    { s with vaultWallet := vw4, psm := p2, ct_eth_amm := ctA1, ds_eth_amm := dsA1 })
                | (.ok new_eth, vw4, dsA1) =>
                  recursive_conversion sq fuel'
                    { s with vaultWallet := vw4, psm := p2, ct_eth_amm := ctA1, ds_eth_amm := dsA1 }
                    new_eth
              else
                recursive_conversion sq fuel'
                  { s with vaultWallet := vw3, psm := p2, ct_eth_amm := ctA1 } 0

/-- `Vault.deposit_eth`: move the ETH from the depositor into the vault wallet,
run the recursive conversion, then issue LP tokens for the deposited amount. -/
def deposit_eth (sq : ℚ → ℚ) (fuel : ℕ) (s : VState) (amount_eth : ℚ) :
    Except Err Unit × VState :=
  match s.investor.withdraw_eth amount_eth with
  | .error e => (.error e, s)
  | .ok inv1 =>
    match s.vaultWallet.deposit_eth amount_eth with
    | .error e => (.error e, { s with investor := inv1 })
    | .ok vw1 =>
      let s1 : VState := { s with investor := inv1, vaultWallet := vw1 }
      match recursive_conversion sq fuel s1 amount_eth with
      | (.error e, s2) => (.error e, s2)
      | (.ok _, s2) =>
        match issue_lp_tokens s2 s2.investor amount_eth with
        | (.error e, s3, inv2) => (.error e, { s3 with investor := inv2 })
        | (.ok _, s3, inv2) => (.ok (), { s3 with investor := inv2 })

/-- `Vault.calculate_sell_ds_outcome`: dry run of `sell_ds` — cap the amount by
the CT and ETH available, value the PSM redemption 1:1, estimate the ETH needed
to buy the CT back (with fee and slippage), and clamp the investor remainder at
zero.  Pure: no state is touched. -/
def calculate_sell_ds_outcome (s : VState) (amount_ds : ℚ) : ℚ :=
  let ct_eth_price := s.ct_eth_amm.price
  let ds_price := s.ds_eth_amm.price
  let ct_fee := s.ct_eth_amm.fee
  let ct_available := s.ct_eth_amm.reserve_token
  let eth_available := s.ds_eth_amm.reserve_eth
  let max_ds_sellable := min (min amount_ds ct_available) (eth_available / ds_price)
  let amount_ds1 := if amount_ds > max_ds_sellable then max_ds_sellable else amount_ds
  let eth_from_psm := amount_ds1
  let eth_needed_for_repayment := amount_ds1 * ct_eth_price
  let ct_slippage := s.ct_eth_amm.calculate_slippage eth_needed_for_repayment .ethToToken
  let eth_to_swap_for_ct := eth_needed_for_repayment / ((1 - ct_fee) * (1 - ct_slippage))
  let remaining_eth := eth_from_psm - eth_to_swap_for_ct
  if remaining_eth < 0 then 0 else remaining_eth

/-- `Vault.calculate_buy_ds_outcome`: dry run of `buy_ds` — price the DS to
hand out, the ETH to borrow, the CT sale proceeds with slippage, and the DS that
must be sold to cover the shortfall; the remaining DS is clamped at zero.
Pure: no state is touched. -/
def calculate_buy_ds_outcome (s : VState) (amount_eth : ℚ) : ℚ :=
  let ct_eth_price := s.ct_eth_amm.price
  let ds_price := s.ds_eth_amm.price
  let ct_fee := s.ct_eth_amm.fee
  let ds_fee := s.ds_eth_amm.fee
  let ds_to_give_investor := amount_eth / ds_price
  let eth_to_borrow := ds_to_give_investor * ct_eth_price
  let total_eth := amount_eth + eth_to_borrow
  let ct_received := total_eth
  let ds_received := total_eth
  let ct_slippage := s.ct_eth_amm.calculate_slippage ct_received .tokenToEth
  let expected_eth_from_ct := ct_received * ct_eth_price * (1 - ct_fee) * (1 - ct_slippage)
  let eth_needed_for_repayment := eth_to_borrow
  let shortfall_eth := eth_needed_for_repayment - expected_eth_from_ct
  let remaining_ds :=
    if shortfall_eth > 0 then
      let ds_slippage := s.ds_eth_amm.calculate_slippage (shortfall_eth / ds_price) .tokenToEth
      let ds_to_sell := shortfall_eth / (ds_price * (1 - ds_fee) * (1 - ds_slippage))
      ds_received - ds_to_sell
    else ds_received
  if remaining_ds < 0 then 0 else remaining_ds

end VState

/-- The repayment loop of `Vault.buy_ds` (step 9): while the accumulated ETH is
short of the borrow, re-price DS and sell
`((eth_to_borrow - accumulated) / new_ds_price) / (1 + ds_amm_fee)` more,
bounded by `fuel`.  Returns the accumulated ETH and the total DS sold. -/
def buy_ds_repay_loop (blk : ℕ) (ds_amm_fee eth_to_borrow : ℚ) :
    ℕ → Wallet → AMM → ℚ → ℚ → Except Err (ℚ × ℚ) × Wallet × AMM
  | fuel, w, a, acc, sold =>
    if acc < eth_to_borrow then
      match fuel with
      | 0 => (.error .loopFuelExhausted, w, a)
      | fuel' + 1 =>
        let new_ds_price := a.price
        let more_ds_to_sell := ((eth_to_borrow - acc) / new_ds_price) / (1 + ds_amm_fee)
        match AMM.swap_token_for_eth blk w a more_ds_to_sell with
        | (.error e, w1, a1) => (.error e, w1, a1)
        | (.ok new_eth_from_ds, w1, a1) =>
          buy_ds_repay_loop blk ds_amm_fee eth_to_borrow fuel' w1 a1
            (acc + new_eth_from_ds) (sold + more_ds_to_sell)
    else (.ok (acc, sold), w, a)

/-- `Vault.buy_ds`: reject when the dry run is `≤ 0`; cap the spend by the DS
available; move the ETH into the vault; borrow matching ETH; mint CT and DS at
the PSM; sell all CT, then DS (looping while short) to repay; repay; hand the
investor the remaining DS, asserting it is positive.  The source's `while` loop
is bounded by `fuel`; direct dict indexing of the vault wallet's DS balance is
a `keyError` when the key is absent. -/
def buy_ds (fuel : ℕ) (s : VState) (amount_eth0 : ℚ) : Except Err Unit × VState :=
  if VState.calculate_buy_ds_outcome s amount_eth0 ≤ 0 then
    (.error .insufficientLiquidity, s)
  else
    let blk := s.chain.current_block
    let sym := s.token_symbol
    let ct_eth_price := s.ct_eth_amm.price
    let ds_price := s.ds_eth_amm.price
    let ds_available := s.ds_eth_amm.reserve_token
    let ds_available_in_eth := ds_available * ds_price
    let amount_eth := if amount_eth0 > ds_available_in_eth then ds_available_in_eth else amount_eth0
    match s.investor.withdraw_eth amount_eth with
    | .error e => (.error e, s)
    | .ok inv1 =>
      match s.vaultWallet.deposit_eth amount_eth with
      | .error e => (.error e, { s with investor := inv1 })
      | .ok vw1 =>
        let eth_to_borrow := (amount_eth / ds_price) * ct_eth_price
        match s.chain.borrow_eth vw1 eth_to_borrow with
        | (.error e, c1, vw2) =>
          (.error e, s.pack inv1 vw2 s.psm s.ct_eth_amm s.ds_eth_amm c1)
        | (.ok _, c1, vw2) =>
          let total_eth := amount_eth + eth_to_borrow
          match s.psm.deposit_eth vw2 total_eth with
          | (.error e, vw3, p1) =>
            (.error e, s.pack inv1 vw3 p1 s.ct_eth_amm s.ds_eth_amm c1)
          | (.ok _, vw3, p1) =>
            let ct_received := total_eth
            let ds_received := total_eth
            match AMM.swap_token_for_eth blk vw3 s.ct_eth_amm ct_received with
            | (.error e, vw4, ctA1) =>
              (.error e, s.pack inv1 vw4 p1 ctA1 s.ds_eth_amm c1)
            | (.ok eth_from_ct, vw4, ctA1) =>
              let ds_amm_fee := s.ds_eth_amm.fee
              let short := eth_to_borrow - eth_from_ct
              let eth_needed_for_repayment := if short < 0 then 0 else short
              let ds_to_sell0 := (eth_needed_for_repayment / ds_price) / (1 - ds_amm_fee)
              match vw4.token_balances (dsKey sym) with
              | none => (.error .keyError, s.pack inv1 vw4 p1 ctA1 s.ds_eth_amm c1)
              | some ds_bal =>
                let ds_to_sell := if ds_to_sell0 > ds_bal then ds_bal else ds_to_sell0
                match AMM.swap_token_for_eth blk vw4 s.ds_eth_amm ds_to_sell with
                | (.error e, vw5, dsA1) =>
                  (.error e, s.pack inv1 vw5 p1 ctA1 dsA1 c1)
                | (.ok eth_from_ds, vw5, dsA1) =>
                  let acc0 := eth_from_ct + eth_from_ds
                  match buy_ds_repay_loop blk ds_amm_fee eth_to_borrow fuel vw5 dsA1
                      acc0 ds_to_sell with
                  | (.error e, vw6, dsA2) =>
                    (.error e, s.pack inv1 vw6 p1 ctA1 dsA2 c1)
                  | (.ok (_, ds_sold_total), vw6, dsA2) =>
                    match c1.repay_eth vw6 eth_to_borrow with
                    | (.error e, c2, vw7) =>
                      (.error e, s.pack inv1 vw7 p1 ctA1 dsA2 c2)
                    | (.ok _, c2, vw7) =>
                      let remaining_ds0 := ds_received - ds_sold_total
                      match vw7.token_balances (dsKey sym) with
                      | none => (.error .keyError, s.pack inv1 vw7 p1 ctA1 dsA2 c2)
                      | some ds_bal2 =>
                        let remaining_ds :=
                          if remaining_ds0 > ds_bal2 then ds_bal2 else remaining_ds0
                        if remaining_ds ≤ 0 then
                          (.error .assertionFailed, s.pack inv1 vw7 p1 ctA1 dsA2 c2)
                        else
                          match vw7.withdraw_token (dsKey sym) remaining_ds with
                          | .error e => (.error e, s.pack inv1 vw7 p1 ctA1 dsA2 c2)
                          | .ok vw8 =>
                            match inv1.deposit_token (dsKey sym) remaining_ds with
                            | .error e => (.error e, s.pack inv1 vw8 p1 ctA1 dsA2 c2)
                            | .ok inv2 => (.ok (), s.pack inv2 vw8 p1 ctA1 dsA2 c2)

/-- The front of `Vault.sell_ds`, steps 0 through the computation of the ETH
for the first buy-back swap (source lines 408-442): the dry-run guard, the cap
against the CT pool's token reserve and the DS pool's ETH reserve, the transfer
of the DS into the vault, the CT borrow, the PSM redemption, and the fee-grossed
ETH amount `eth_to_swap_for_ct = eth_from_ds * ct_eth_price / (1 - ct_amm_fee)`.
Returns `(amount_ds after cap = ct_to_borrow, ct_eth_price, eth_from_ds,
eth_to_swap_for_ct)` together with the state just before the first swap. -/
def sell_ds_to_first_swap (s : VState) (amount_ds0 : ℚ) :
    Except Err (ℚ × ℚ × ℚ × ℚ) × VState :=
  if VState.calculate_sell_ds_outcome s amount_ds0 ≤ 0 then
    (.error .insufficientLiquidity, s)
  else
    match s.investor.withdraw_token (dsKey s.token_symbol)
        (if amount_ds0 > s.ct_eth_amm.reserve_token ∨
            amount_ds0 * s.ds_eth_amm.price > s.ds_eth_amm.reserve_eth then
          min s.ct_eth_amm.reserve_token (s.ds_eth_amm.reserve_eth / s.ds_eth_amm.price)
        else amount_ds0) with
    | .error e => (.error e, s)
    | .ok inv1 =>
      match s.vaultWallet.deposit_token (dsKey s.token_symbol)
          (if amount_ds0 > s.ct_eth_amm.reserve_token ∨
              amount_ds0 * s.ds_eth_amm.price > s.ds_eth_amm.reserve_eth then
            min s.ct_eth_amm.reserve_token (s.ds_eth_amm.reserve_eth / s.ds_eth_amm.price)
          else amount_ds0) with
      | .error e => (.error e, { s with investor := inv1 })
      | .ok vw1 =>
        match s.chain.borrow_token vw1 (ctKey s.token_symbol)
            (if amount_ds0 > s.ct_eth_amm.reserve_token ∨
                amount_ds0 * s.ds_eth_amm.price > s.ds_eth_amm.reserve_eth then
              min s.ct_eth_amm.reserve_token (s.ds_eth_amm.reserve_eth / s.ds_eth_amm.price)
            else amount_ds0) with
        | (.error e, c1, vw2) =>
          (.error e, s.pack inv1 vw2 s.psm s.ct_eth_amm s.ds_eth_amm c1)
        | (.ok _, c1, vw2) =>
          match s.psm.redeem_with_ct_and_ds vw2
              (if amount_ds0 > s.ct_eth_amm.reserve_token ∨
                  amount_ds0 * s.ds_eth_amm.price > s.ds_eth_amm.reserve_eth then
                min s.ct_eth_amm.reserve_token (s.ds_eth_amm.reserve_eth / s.ds_eth_amm.price)
              else amount_ds0) c1.current_block with
          | (.error e, vw3, p1) =>
            (.error e, s.pack inv1 vw3 p1 s.ct_eth_amm s.ds_eth_amm c1)
          | (.ok eth_from_ds, vw3, p1) =>
            (.ok
              ((if amount_ds0 > s.ct_eth_amm.reserve_token ∨
                    amount_ds0 * s.ds_eth_amm.price > s.ds_eth_amm.reserve_eth then
                  min s.ct_eth_amm.reserve_token (s.ds_eth_amm.reserve_eth / s.ds_eth_amm.price)
                else amount_ds0),
               s.ct_eth_amm.price, eth_from_ds,
               eth_from_ds * s.ct_eth_amm.price / (1 - s.ct_eth_amm.fee)),
              s.pack inv1 vw3 p1 s.ct_eth_amm s.ds_eth_amm c1)

/-- The ETH the vault spends on the first buy-back swap of CT inside
`Vault.sell_ds` — the `eth_to_swap_for_ct` of `sell_ds_to_first_swap`. -/
def sell_ds_first_swap_spend (s : VState) (amount_ds : ℚ) : Except Err ℚ :=
  match sell_ds_to_first_swap s amount_ds with
  | (.error e, _) => .error e
  | (.ok (_, _, _, eth_to_swap_for_ct), _) => .ok eth_to_swap_for_ct

/-- The buy-back loop of `Vault.sell_ds` (step 7): while the CT acquired is
short of the borrow, re-price CT and swap
`((ct_to_borrow - ct_from_eth) / new_ct_eth_price) * (1 + ct_amm_fee)` more ETH,
decrementing the investor payout; bounded by `fuel`.  Returns the total CT
acquired and the remaining ETH to return. -/
def sell_ds_buyback_loop (blk : ℕ) (ct_amm_fee ct_to_borrow : ℚ) :
    ℕ → Wallet → AMM → ℚ → ℚ → Except Err (ℚ × ℚ) × Wallet × AMM
  | fuel, w, a, ct_from_eth, remaining =>
    if ct_from_eth < ct_to_borrow then
      match fuel with
      | 0 => (.error .loopFuelExhausted, w, a)
      | fuel' + 1 =>
        let new_ct_eth_price := a.price
        let eth_to_swap_for_ct := ((ct_to_borrow - ct_from_eth) / new_ct_eth_price) * (1 + ct_amm_fee)
        match AMM.swap_eth_for_token blk w a eth_to_swap_for_ct with
        | (.error e, w1, a1) => (.error e, w1, a1)
        | (.ok got, w1, a1) =>
          sell_ds_buyback_loop blk ct_amm_fee ct_to_borrow fuel' w1 a1
            (ct_from_eth + got) (remaining - eth_to_swap_for_ct)
    else (.ok (ct_from_eth, remaining), w, a)

/-- `Vault.sell_ds`: the front (`sell_ds_to_first_swap`), then the first
buy-back swap of CT, the top-up loop, the CT repayment, and the payout of the
residual ETH to the investor (the vault withdraws the residual even when it is
negative — the source's `withdraw_eth` has no sign check — but only deposits it
to the investor when positive). -/
def sell_ds (fuel : ℕ) (s : VState) (amount_ds0 : ℚ) : Except Err Unit × VState :=
  match sell_ds_to_first_swap s amount_ds0 with
  | (.error e, s1) => (.error e, s1)
  | (.ok (ct_to_borrow, _, eth_from_ds, eth_to_swap_for_ct), s1) =>
    let blk := s1.chain.current_block
    let sym := s1.token_symbol
    let ct_amm_fee := s1.ct_eth_amm.fee
    match AMM.swap_eth_for_token blk s1.vaultWallet s1.ct_eth_amm eth_to_swap_for_ct with
    | (.error e, vw1, ctA1) => (.error e, { s1 with vaultWallet := vw1, ct_eth_amm := ctA1 })
    | (.ok ct_from_eth, vw1, ctA1) =>
      let remaining_eth_to_return := eth_from_ds - eth_to_swap_for_ct
      match sell_ds_buyback_loop blk ct_amm_fee ct_to_borrow fuel vw1 ctA1
          ct_from_eth remaining_eth_to_return with
      | (.error e, vw2, ctA2) => (.error e, { s1 with vaultWallet := vw2, ct_eth_amm := ctA2 })
      | (.ok (_, remaining), vw2, ctA2) =>
        match s1.chain.repay_token vw2 (ctKey sym) ct_to_borrow with
        | (.error e, c2, vw3) =>
          (.error e, { s1 with vaultWallet := vw3, ct_eth_amm := ctA2, chain := c2 })
        | (.ok _, c2, vw3) =>
          match vw3.withdraw_eth remaining with
          | .error e =>
            (.error e, { s1 with vaultWallet := vw3, ct_eth_amm := ctA2, chain := c2 })
          | .ok vw4 =>
            if remaining > 0 then
              match s1.investor.deposit_eth remaining with
              | .error e =>
                (.error e, { s1 with vaultWallet := vw4, ct_eth_amm := ctA2, chain := c2 })
              | .ok inv1 =>
                (.ok (),
                  { s1 with
                    investor := inv1
                    vaultWallet := vw4
                    ct_eth_amm := ctA2
                    chain := c2 })
            else
              (.ok (), { s1 with vaultWallet := vw4, ct_eth_amm := ctA2, chain := c2 })

/-! ### Concrete states used to instantiate the theorems -/

/-- A `UniswapV2AMM` as constructed by the source: fresh ledgers and holder map,
no LP supply, and the constant-product `calcOut`/price. -/
def cpAMM (name : String) (re rt fee : ℚ) : AMM :=
  { name := name, reserve_eth := re, reserve_token := rt, total_lpt_supply := 0, fee := fee,
    lpt_holders := fun _ => 0, fee_accumulated_eth := fun _ => 0,
    fee_accumulated_token := fun _ => 0,
    calcOut := uniswapCalcOut, priceFn := uniswapPrice }

/-- A freshly constructed wallet: zero ETH and empty balance dicts. -/
def emptyWallet (o : String) : Wallet :=
  { owner := o, eth_balance := 0, token_balances := fun _ => none, lpt_balances := fun _ => none }

/-- A chain state with an empty borrow ledger at block 1, the three symbols of
the LST `X` registered, and no ETH yield configured. -/
def chain0 : Chain :=
  { current_block := 1, eth_yield_per_block := 0, eth_yield := none,
    tokens := [("X", 0), ("CT_X", 0), ("DS_X", 0)],
    borrowed_eth := fun _ => 0, total_borrowed_eth := 0,
    borrowed_token := fun _ _ => 0, total_borrowed_token := [] }

/-- A PSM for `X` with ETH reserve 100, the source's default fees and expiry 10. -/
def psm0 : PSM :=
  { token_symbol := "X", expiry_block := 10, eth_reserve := 100, token_reserve := 0,
    redemption_fee := 1/1000, repurchase_fee := 1/20,
    total_redemption_fee := 0, total_repurchase_fee := 0 }

/-- Vault state over thin fee-free pools (1 ETH against 1000 tokens on both the
CT/ETH and the DS/ETH side), where the `buy_ds` dry run of 1 ETH returns 0. -/
def s1ex : VState :=
  { investor := { emptyWallet "inv" with eth_balance := 5 }
    vaultWallet := emptyWallet "Vault Wallet"
    token_symbol := "X"
    reserve_ct := 2/5
    lp_token_supply := 0
    lp_holders := fun _ => 0
    psm := psm0
    ct_eth_amm := cpAMM "CT_X" 1 1000 0
    ds_eth_amm := cpAMM "DS_X" 1 1000 0
    chain := chain0 }

/-- A chain whose configured ETH yield is zero and which registers no tokens. -/
def c3ex : Chain :=
  { current_block := 2, eth_yield_per_block := 0, eth_yield := none, tokens := [],
    borrowed_eth := fun _ => 0, total_borrowed_eth := 0,
    borrowed_token := fun _ _ => 0, total_borrowed_token := [] }

/-- A wallet holding 100 ETH. -/
def w3ex : Wallet := { emptyWallet "agent" with eth_balance := 100 }

/-- A chain whose outstanding borrowed ETH is the residual `1e-10`. -/
def c4tiny : Chain :=
  { current_block := 3, eth_yield_per_block := 0, eth_yield := none, tokens := [],
    borrowed_eth := fun o => if o = "agent" then 1/10000000000 else 0,
    total_borrowed_eth := 1/10000000000,
    borrowed_token := fun _ _ => 0, total_borrowed_token := [] }

/-- A fee-free constant-product pool and a funded wallet for the C9 witness. -/
def w9 : Wallet :=
  { emptyWallet "trader" with
    eth_balance := 10
    token_balances := fun k => if k = "T" then some 10 else none }

/-- The pool of the C9 witness. -/
def a9 : AMM := cpAMM "T" 100 100 0

/-- The square root used by the C7 witness, exact at the one point queried. -/
def sq7 : ℚ → ℚ := fun q => if q = 1000000/81 then 1000/9 else 0

/-- The C7 witness pool: fee-free constant-product with reserves 100/100. -/
def a7 : AMM := cpAMM "X" 100 100 0

/-- The event manager's internal wallet for the C7 witness. -/
def w7 : Wallet := emptyWallet "EventManager"

/-- A wallet with no ETH and no tokens, for the C6 counterexample. -/
def w6c : Wallet := emptyWallet "poor"

/-- A wallet holding 5 each of `X`, `CT_X` and `DS_X`, for C8. -/
def w8 : Wallet :=
  { emptyWallet "redeemer" with
    token_balances := fun k =>
      if k = "X" ∨ k = "CT_X" ∨ k = "DS_X" then some 5 else none }

/-- A PSM for `X` with an empty ETH reserve. -/
def psm8dry : PSM := { psm0 with eth_reserve := 0 }

/-- The CT/ETH pool for C2: constant-product, reserves 100/100, no fee, and an
existing LP supply of 100. -/
def ctA2 : AMM := { cpAMM "CT_X" 100 100 0 with total_lpt_supply := 100 }

/-- The DS/ETH pool for C2, at spot price 1/2. -/
def dsA2 : AMM := cpAMM "DS_X" 50 100 0

/-- The vault wallet for C2: 17 ETH, 10 CT and 3 DS, no LP tokens yet. -/
def w2v : Wallet :=
  { emptyWallet "Vault Wallet" with
    eth_balance := 17
    token_balances := fun k =>
      if k = "CT_X" then some 10 else if k = "DS_X" then some 3 else none }

/-- The vault wallet provides 10 ETH and 10 CT to the CT/ETH pool — the step of
the recursive split that leaves the vault holding CT/ETH LP shares, recorded
under the pool's name `CT_X`. -/
def addLiq2 : Except Err Unit × Wallet × AMM := AMM.add_liquidity (fun _ => 0) w2v ctA2 10 10

/-- The vault state after that liquidity provision: LP token supply 100. -/
def s2ex : VState :=
  { investor := { emptyWallet "lp-investor" with eth_balance := 17 }
    vaultWallet := addLiq2.2.1
    token_symbol := "X"
    reserve_ct := 2/5
    lp_token_supply := 100
    lp_holders := fun _ => 0
    psm := psm0
    ct_eth_amm := addLiq2.2.2
    ds_eth_amm := dsA2
    chain := chain0 }

/-- Vault state with a CT/ETH pool at spot 1/2 and a DS/ETH pool at spot 1,
both fee-free, an investor holding 20 DS, and the PSM `psm0`; on it a
`sell_ds` of 10 DS passes the dry run and is not capped. -/
def s5ex : VState :=
  { investor :=
      { emptyWallet "inv" with token_balances := fun k => if k = "DS_X" then some 20 else none }
    vaultWallet := emptyWallet "Vault Wallet"
    token_symbol := "X"
    reserve_ct := 2/5
    lp_token_supply := 0
    lp_holders := fun _ => 0
    psm := psm0
    ct_eth_amm := cpAMM "CT_X" 1000 2000 0
    ds_eth_amm := cpAMM "DS_X" 100 100 0
    chain := chain0 }

/-! ### Helper lemmas: key disjointness and success paths of the primitives -/

/-- The coverage-token key differs from the depeg-swap key of the same symbol. -/
theorem ctKey_ne_dsKey (sym : String) : ctKey sym ≠ dsKey sym := by
  intro h
  have h2 : ("CT_" ++ sym).data = ("DS_" ++ sym).data := congrArg String.data h
  simp [String.data_append] at h2

/-- An LST symbol differs from its depeg-swap key. -/
theorem self_ne_dsKey (sym : String) : sym ≠ dsKey sym := by
  intro h
  have h2 : sym.length = ("DS_" ++ sym).length := congrArg String.length h
  have h3 : ("DS_" ++ sym).length = "DS_".length + sym.length := String.length_append ..
  have h4 : ("DS_" : String).length = 3 := rfl
  omega

/-- An LST symbol differs from its coverage-token key. -/
theorem self_ne_ctKey (sym : String) : sym ≠ ctKey sym := by
  intro h
  have h2 : sym.length = ("CT_" ++ sym).length := congrArg String.length h
  have h3 : ("CT_" ++ sym).length = "CT_".length + sym.length := String.length_append ..
  have h4 : ("CT_" : String).length = 3 := rfl
  omega

/-- The coverage key of the concrete symbol `X`, evaluated. -/
theorem ctKeyX : ctKey "X" = "CT_X" := rfl

/-- The depeg-swap key of the concrete symbol `X`, evaluated. -/
theorem dsKeyX : dsKey "X" = "DS_X" := rfl

theorem mapSet_same (m : String → Option ℚ) (k : String) (v : ℚ) : mapSet m k v k = some v := by
  simp [mapSet]

theorem mapSet_other (m : String → Option ℚ) (k k1 : String) (v : ℚ) (h : k1 ≠ k) :
    mapSet m k v k1 = m k1 := by
  simp [mapSet, h]

theorem Wallet.withdraw_eth_ok (w : Wallet) (a : ℚ) (h : a ≤ w.eth_balance) :
    w.withdraw_eth a = .ok { w with eth_balance := w.eth_balance - a } := by
  rw [Wallet.withdraw_eth, if_neg (not_lt.mpr h)]

theorem Wallet.deposit_eth_ok (w : Wallet) (a : ℚ) (h : 0 ≤ a) :
    w.deposit_eth a = .ok { w with eth_balance := w.eth_balance + a } := by
  rw [Wallet.deposit_eth, if_neg (not_lt.mpr h)]

theorem Wallet.deposit_token_ok (w : Wallet) (k : String) (a : ℚ) (h : 0 ≤ a) :
    w.deposit_token k a =
      .ok { w with token_balances := mapSet w.token_balances k ((w.token_balances k).getD 0 + a) } := by
  rw [Wallet.deposit_token, if_neg (not_lt.mpr h)]

theorem Wallet.withdraw_token_ok (w : Wallet) (k : String) (a b : ℚ)
    (hk : w.token_balances k = some b) (h : a ≤ b) :
    w.withdraw_token k a =
      .ok { w with token_balances := mapSet w.token_balances k (b - a) } := by
  rw [Wallet.withdraw_token, hk]
  exact if_neg (not_lt.mpr h)

theorem Wallet.deposit_lpt_ok (w : Wallet) (k : String) (a : ℚ) (h : 0 ≤ a) :
    w.deposit_lpt k a =
      .ok { w with lpt_balances := mapSet w.lpt_balances k ((w.lpt_balances k).getD 0 + a) } := by
  rw [Wallet.deposit_lpt, if_neg (not_lt.mpr h)]

/-! ### C1 — buy_ds rejects on a nonpositive dry run and changes nothing -/

/-- C1: for every vault state (hence every investor wallet, vault wallet, AMM,
PSM and borrow ledger) and every `amount_eth` whose dry run
`calculate_buy_ds_outcome` is `≤ 0`, `buy_ds` fails with `InsufficientLiquidity`
and returns the state exactly as it was: the guard is the first statement of the
routine and the dry run itself is pure. -/
theorem buy_ds_rejects_when_dry_run_nonpositive (fuel : ℕ) (s : VState) (amount_eth : ℚ)
    (h : VState.calculate_buy_ds_outcome s amount_eth ≤ 0) :
    buy_ds fuel s amount_eth = (.error .insufficientLiquidity, s) := by
  rw [buy_ds, if_pos h]

/-- Witness for C1: on the thin pools of `s1ex` the dry run of 1 ETH is `≤ 0`
and `buy_ds` fails with `InsufficientLiquidity` leaving the state untouched. -/
theorem buy_ds_rejects_witness :
    VState.calculate_buy_ds_outcome s1ex 1 ≤ 0 ∧
    buy_ds 5 s1ex 1 = (.error .insufficientLiquidity, s1ex) := by
  have h : VState.calculate_buy_ds_outcome s1ex 1 ≤ 0 := by
    norm_num [VState.calculate_buy_ds_outcome, AMM.calculate_slippage, AMM.price,
      uniswapPrice, uniswapCalcOut, cpAMM, s1ex]
  exact ⟨h, buy_ds_rejects_when_dry_run_nonpositive 5 s1ex 1 h⟩

/-! ### C3 — eth_yield_adjustment events do not reach yield distribution -/

/-- C3 (code bug): `_adjust_eth_yield` assigns the attribute `eth_yield`, while
`_distribute_yield` reads `eth_yield_per_block`, so an `eth_yield_adjustment`
event has no effect whatsoever on later yield distribution: for every chain,
percentage and wallet the accrual after the event equals the accrual without
it; in particular on `c3ex` (configured ETH yield 0) a wallet holding 100 ETH
accrues nothing after an event with percentage 1/100, although the claim
demands an accrual of `100 * 1/100 = 1` ETH. -/
theorem eth_yield_adjustment_has_no_effect :
    (∀ (c : Chain) (p : ℚ) (w : Wallet),
      Chain.distribute_yield_wallet (adjust_eth_yield c p) w =
        Chain.distribute_yield_wallet c w) ∧
    Chain.distribute_yield_wallet (adjust_eth_yield c3ex (1/100)) w3ex = .ok w3ex ∧
    w3ex.eth_balance * (1/100) = 1 := by
  refine ⟨fun c p w => rfl, ?_, ?_⟩
  · show Chain.distribute_yield_wallet c3ex w3ex = .ok w3ex
    norm_num [Chain.distribute_yield_wallet, c3ex, List.foldlM]
    rfl
  · norm_num [w3ex, emptyWallet]

/-! ### C4 — the end-of-block debt check is strict, with no 1e-9 epsilon -/

/-- Counterexample for C4: a residual total of `1e-10` — smaller than `1e-9` in
absolute value — does NOT pass the end-of-block check: the source compares with
`> 0`, so `_check_borrowings_repaid` raises `OutstandingDebt` on it. -/
theorem debt_check_epsilon_counterexample :
    |c4tiny.total_borrowed_eth| < 1/1000000000 ∧
    Chain.check_borrowings_repaid c4tiny = .error .outstandingDebt := by
  constructor
  · rw [show c4tiny.total_borrowed_eth = 1/10000000000 from rfl,
      abs_of_pos (by norm_num)]
    norm_num
  · rw [Chain.check_borrowings_repaid, if_pos (by norm_num [c4tiny])]

/-- The check fails on any chain with a strictly positive outstanding ETH total. -/
theorem check_fails_of_pos_total (d : Chain) (hd : d.total_borrowed_eth > 0) :
    Chain.check_borrowings_repaid d = .error .outstandingDebt := by
  rw [Chain.check_borrowings_repaid, if_pos hd]

/-- C4 (amended): the end-of-block check `_check_borrowings_repaid` passes
exactly when the outstanding ETH total and every outstanding token total are
`≤ 0` — the comparison is strict `> 0` with no `1e-9` tolerance — and after an
agent borrows 1 ETH without repaying, the check fails with `OutstandingDebt`. -/
theorem end_of_block_debt_check_strict (c : Chain) (w : Wallet)
    (h : 0 ≤ c.total_borrowed_eth) :
    (Chain.check_borrowings_repaid c = .ok () ↔
      c.total_borrowed_eth ≤ 0 ∧ ∀ q ∈ c.total_borrowed_token, q.2 ≤ 0) ∧
    Chain.check_borrowings_repaid ((c.borrow_eth w 1).2.1) = .error .outstandingDebt := by
  constructor
  · rw [Chain.check_borrowings_repaid]
    by_cases h1 : c.total_borrowed_eth > 0
    · rw [if_pos h1]
      constructor
      · intro hok; exact absurd hok (by simp)
      · intro hand; exact absurd h1 (not_lt.mpr hand.1)
    · rw [if_neg h1]
      by_cases h2 : c.total_borrowed_token.any (fun q => decide (q.2 > 0))
      · rw [if_pos h2]
        rcases List.any_eq_true.mp h2 with ⟨q, hq, hq2⟩
        constructor
        · intro hok; exact absurd hok (by simp)
        · intro hand
          exact absurd (of_decide_eq_true hq2) (not_lt.mpr (hand.2 q hq))
      · rw [if_neg h2]
        simp only [true_iff]
        refine ⟨not_lt.mp h1, fun q hq => ?_⟩
        by_contra hpos
        exact h2 (List.any_eq_true.mpr ⟨q, hq, decide_eq_true (not_le.mp hpos)⟩)
  · have htot : ((c.borrow_eth w 1).2.1).total_borrowed_eth = c.total_borrowed_eth + 1 := by
      rw [Chain.borrow_eth, if_neg (by norm_num)]
      cases Wallet.deposit_eth w 1 <;> rfl
    exact check_fails_of_pos_total _ (by rw [htot]; linarith)

/-! ### C9 — constant-product swaps preserve or increase the reserve product -/

/-- Core algebra of the constant-product swap: adding the full input `a` to the
input reserve while removing the output computed from the fee-reduced input
keeps the reserve product, exactly when `f = 0` and with a strict increase when
`f > 0`. -/
theorem cp_product_shift (re rt a f : ℚ) (hre : 0 < re) (hrt : 0 < rt) (ha : 0 < a)
    (hf0 : 0 ≤ f) (hf1 : f < 1) :
    re * rt ≤ (re + a) * (rt - uniswapCalcOut (a * (1 - f)) re rt) ∧
    (f = 0 → (re + a) * (rt - uniswapCalcOut (a * (1 - f)) re rt) = re * rt) ∧
    (0 < f → re * rt < (re + a) * (rt - uniswapCalcOut (a * (1 - f)) re rt)) := by
  have hD : 0 < re + a * (1 - f) := by nlinarith
  have hout : rt - uniswapCalcOut (a * (1 - f)) re rt = rt * re / (re + a * (1 - f)) := by
    rw [uniswapCalcOut]
    field_simp
    ring
  rw [hout, mul_div_assoc']
  refine ⟨?_, ?_, ?_⟩
  · rw [le_div_iff₀ hD]
    nlinarith [mul_nonneg (mul_nonneg hre.le hrt.le) (mul_nonneg ha.le hf0)]
  · intro hf
    subst hf
    field_simp
    ring
  · intro hfpos
    rw [lt_div_iff₀ hD]
    nlinarith [mul_pos (mul_pos hre hrt) (mul_pos ha hfpos)]

/-- Success path of `swap_eth_for_token`: with enough ETH in the wallet and a
nonnegative output, the swap returns the computed output, debits/credits the
wallet, moves the reserves and credits the per-block ETH fee ledger. -/
theorem swap_eth_for_token_ok (blk : ℕ) (w : Wallet) (a : AMM) (de : ℚ)
    (h1 : de ≤ w.eth_balance)
    (hout : 0 ≤ a.calcOut (de * (1 - a.fee)) a.reserve_eth a.reserve_token) :
    AMM.swap_eth_for_token blk w a de =
      (.ok (a.calcOut (de * (1 - a.fee)) a.reserve_eth a.reserve_token),
       { w with
         eth_balance := w.eth_balance - de
         token_balances := mapSet w.token_balances a.name
           ((w.token_balances a.name).getD 0 +
             a.calcOut (de * (1 - a.fee)) a.reserve_eth a.reserve_token) },
       { a with
         reserve_eth := a.reserve_eth + de
         reserve_token := a.reserve_token - a.calcOut (de * (1 - a.fee)) a.reserve_eth a.reserve_token
         fee_accumulated_eth := blockSet a.fee_accumulated_eth blk
           (a.fee_accumulated_eth blk + de * a.fee) }) := by
  rw [AMM.swap_eth_for_token]
  rw [Wallet.withdraw_eth_ok w de h1]
  simp only []
  rw [Wallet.deposit_token_ok _ _ _ hout]

/-- Success path of `swap_token_for_eth`: mirror image of
`swap_eth_for_token_ok`, crediting the per-block token fee ledger. -/
theorem swap_token_for_eth_ok (blk : ℕ) (w : Wallet) (a : AMM) (dt b : ℚ)
    (hk : w.token_balances a.name = some b) (h1 : dt ≤ b)
    (hout : 0 ≤ a.calcOut (dt * (1 - a.fee)) a.reserve_token a.reserve_eth) :
    AMM.swap_token_for_eth blk w a dt =
      (.ok (a.calcOut (dt * (1 - a.fee)) a.reserve_token a.reserve_eth),
       { w with
         eth_balance := w.eth_balance + a.calcOut (dt * (1 - a.fee)) a.reserve_token a.reserve_eth
         token_balances := mapSet w.token_balances a.name (b - dt) },
       { a with
         reserve_token := a.reserve_token + dt
         reserve_eth := a.reserve_eth - a.calcOut (dt * (1 - a.fee)) a.reserve_token a.reserve_eth
         fee_accumulated_token := blockSet a.fee_accumulated_token blk
           (a.fee_accumulated_token blk + dt * a.fee) }) := by
  rw [AMM.swap_token_for_eth]
  rw [Wallet.withdraw_token_ok w a.name dt b hk h1]
  simp only []
  rw [Wallet.deposit_eth_ok _ _ hout]

/-- C9: on a constant-product pool with positive reserves, both swap directions
with positive input succeed and leave the reserve product unchanged or larger —
exactly preserved when the fee is zero, strictly increased when it is positive —
because the full input is added to the input-side reserve while the output is
computed from the fee-reduced input. -/
theorem cp_swap_preserves_or_increases_product (blk : ℕ) (w : Wallet) (a : AMM)
    (hcp : a.calcOut = uniswapCalcOut)
    (hre : 0 < a.reserve_eth) (hrt : 0 < a.reserve_token)
    (hf0 : 0 ≤ a.fee) (hf1 : a.fee < 1)
    (de dt b : ℚ) (hde : 0 < de) (hdt : 0 < dt)
    (hweth : de ≤ w.eth_balance)
    (hwtok : w.token_balances a.name = some b) (hb : dt ≤ b) :
    ((AMM.swap_eth_for_token blk w a de).1 =
        .ok (a.calcOut (de * (1 - a.fee)) a.reserve_eth a.reserve_token) ∧
      a.reserve_eth * a.reserve_token ≤
        (AMM.swap_eth_for_token blk w a de).2.2.reserve_eth *
          (AMM.swap_eth_for_token blk w a de).2.2.reserve_token ∧
      (a.fee = 0 →
        (AMM.swap_eth_for_token blk w a de).2.2.reserve_eth *
          (AMM.swap_eth_for_token blk w a de).2.2.reserve_token =
          a.reserve_eth * a.reserve_token) ∧
      (0 < a.fee →
        a.reserve_eth * a.reserve_token <
          (AMM.swap_eth_for_token blk w a de).2.2.reserve_eth *
            (AMM.swap_eth_for_token blk w a de).2.2.reserve_token)) ∧
    ((AMM.swap_token_for_eth blk w a dt).1 =
        .ok (a.calcOut (dt * (1 - a.fee)) a.reserve_token a.reserve_eth) ∧
      a.reserve_eth * a.reserve_token ≤
        (AMM.swap_token_for_eth blk w a dt).2.2.reserve_eth *
          (AMM.swap_token_for_eth blk w a dt).2.2.reserve_token ∧
      (a.fee = 0 →
        (AMM.swap_token_for_eth blk w a dt).2.2.reserve_eth *
          (AMM.swap_token_for_eth blk w a dt).2.2.reserve_token =
          a.reserve_eth * a.reserve_token) ∧
      (0 < a.fee →
        a.reserve_eth * a.reserve_token <
          (AMM.swap_token_for_eth blk w a dt).2.2.reserve_eth *
            (AMM.swap_token_for_eth blk w a dt).2.2.reserve_token)) := by
  have hfd : 0 < 1 - a.fee := by linarith
  have hout1 : 0 ≤ a.calcOut (de * (1 - a.fee)) a.reserve_eth a.reserve_token := by
    rw [hcp, uniswapCalcOut]
    have : 0 < a.reserve_eth + de * (1 - a.fee) := by nlinarith
    positivity
  have hout2 : 0 ≤ a.calcOut (dt * (1 - a.fee)) a.reserve_token a.reserve_eth := by
    rw [hcp, uniswapCalcOut]
    have : 0 < a.reserve_token + dt * (1 - a.fee) := by nlinarith
    positivity
  rw [swap_eth_for_token_ok blk w a de hweth hout1,
    swap_token_for_eth_ok blk w a dt b hwtok hb hout2]
  simp only [hcp]
  have H1 := cp_product_shift a.reserve_eth a.reserve_token de a.fee hre hrt hde hf0 hf1
  have H2 := cp_product_shift a.reserve_token a.reserve_eth dt a.fee hrt hre hdt hf0 hf1
  refine ⟨⟨trivial, H1.1, fun hf => H1.2.1 hf, fun hf => H1.2.2 hf⟩,
    ⟨trivial, ?_, fun hf => ?_, fun hf => ?_⟩⟩
  · have := H2.1; nlinarith [this]
  · have := H2.2.1 hf; nlinarith [this]
  · have := H2.2.2 hf; nlinarith [this]

/-- Witness for C9: on the fee-free pool `a9` both swaps of 5 succeed and the
reserve product is exactly preserved. -/
theorem cp_swap_product_witness :
    (AMM.swap_eth_for_token 1 w9 a9 5).1 =
      .ok (a9.calcOut (5 * (1 - a9.fee)) a9.reserve_eth a9.reserve_token) ∧
    (a9.fee = 0 →
      (AMM.swap_eth_for_token 1 w9 a9 5).2.2.reserve_eth *
        (AMM.swap_eth_for_token 1 w9 a9 5).2.2.reserve_token =
        a9.reserve_eth * a9.reserve_token) ∧
    (AMM.swap_token_for_eth 1 w9 a9 5).1 =
      .ok (a9.calcOut (5 * (1 - a9.fee)) a9.reserve_token a9.reserve_eth) := by
  have H := cp_swap_preserves_or_increases_product 1 w9 a9 rfl
    (by norm_num [a9, cpAMM]) (by norm_num [a9, cpAMM])
    (by norm_num [a9, cpAMM]) (by norm_num [a9, cpAMM])
    5 5 10 (by norm_num) (by norm_num)
    (by norm_num [w9, emptyWallet]) (by norm_num [w9, emptyWallet, a9, cpAMM]) (by norm_num)
  exact ⟨H.1.1, H.1.2.2.1, H.2.1⟩

/-! ### C7 — depeg events on a constant-product pool -/

/-- C7: a depeg by `pct ∈ (0,1)` on a constant-product pool computes the target
price `p* = spot * (1 - pct)`, solves the invariant with `math.sqrt` (modelled
by `sq`, hypothesised exact and nonnegative at the point used, as float sqrt is
up to rounding), and realises the change through the ordinary
`swap_token_for_eth` path: the call succeeds; with fee 0 the post-event spot
price equals `p*` exactly (hence within any tolerance); and the swap credits the
pool's per-block token-fee ledger for the event's block with
`delta_y * fee`, a strictly positive credit whenever the fee is. -/
theorem depeg_cp_realizes_target (sq : ℚ → ℚ) (blk : ℕ) (w : Wallet) (a : AMM)
    (pct ynew : ℚ)
    (hcp : a.calcOut = uniswapCalcOut) (hpr : a.priceFn = uniswapPrice)
    (hx : 0 < a.reserve_eth) (hy : 0 < a.reserve_token)
    (hp0 : 0 < pct) (hp1 : pct < 1)
    (hf1 : a.fee < 1)
    (hw : 0 ≤ w.token_balance a.name)
    (hyn : ynew = sq (a.reserve_eth * a.reserve_token / (a.price * (1 - pct))))
    (hsq : ynew ^ 2 = a.reserve_eth * a.reserve_token / (a.price * (1 - pct)))
    (hyn0 : 0 ≤ ynew) :
    (depeg sq blk w a pct).1 = .ok () ∧
    (a.fee = 0 → ((depeg sq blk w a pct).2.2).price = a.price * (1 - pct)) ∧
    ((depeg sq blk w a pct).2.2).fee_accumulated_token blk =
      a.fee_accumulated_token blk + (ynew - a.reserve_token) * a.fee ∧
    (0 < a.fee →
      a.fee_accumulated_token blk < ((depeg sq blk w a pct).2.2).fee_accumulated_token blk) := by
  have hprice : a.price = a.reserve_eth / a.reserve_token := by
    rw [AMM.price, hpr, uniswapPrice, if_neg (ne_of_gt hy)]
  have htpos : 0 < a.price * (1 - pct) := by
    rw [hprice]
    have h1 : 0 < a.reserve_eth / a.reserve_token := div_pos hx hy
    nlinarith
  have hpr2 : a.price * a.reserve_token = a.reserve_eth := by
    rw [hprice]
    field_simp
  have hkey : ynew ^ 2 * (a.price * (1 - pct)) = a.reserve_eth * a.reserve_token := by
    rw [hsq]
    exact div_mul_cancel₀ _ (ne_of_gt htpos)
  have h5re : ynew ^ 2 * (1 - pct) * a.reserve_eth = a.reserve_token ^ 2 * a.reserve_eth := by
    linear_combination a.reserve_token * hkey - ynew ^ 2 * (1 - pct) * hpr2
  have h5 : ynew ^ 2 * (1 - pct) = a.reserve_token ^ 2 :=
    mul_right_cancel₀ (ne_of_gt hx) h5re
  have h6 : 0 < ynew ^ 2 := by nlinarith [mul_pos hy hy]
  have hysq : a.reserve_token ^ 2 < ynew ^ 2 := by nlinarith [mul_pos h6 hp0]
  have hygt : a.reserve_token < ynew := by
    by_contra hc
    push_neg at hc
    nlinarith [mul_nonneg (sub_nonneg.mpr hc) (by linarith : (0:ℚ) ≤ a.reserve_token + ynew)]
  have hynpos : 0 < ynew := lt_of_le_of_lt hy.le hygt
  have hdy : 0 < ynew - a.reserve_token := by linarith
  rw [depeg]
  simp only [← hyn]
  rw [if_pos hdy]
  rw [Wallet.deposit_token_ok w a.name (ynew - a.reserve_token) hdy.le]
  simp only []
  have hout : 0 ≤ a.calcOut ((ynew - a.reserve_token) * (1 - a.fee)) a.reserve_token a.reserve_eth := by
    rw [hcp, uniswapCalcOut]
    apply div_nonneg
    · exact mul_nonneg (mul_nonneg hdy.le (by linarith)) hx.le
    · nlinarith [mul_pos hdy (by linarith : (0:ℚ) < 1 - a.fee)]
  rw [swap_token_for_eth_ok blk _ a (ynew - a.reserve_token)
    ((w.token_balances a.name).getD 0 + (ynew - a.reserve_token)) (mapSet_same ..)
    (by
      have hw2 : 0 ≤ (w.token_balances a.name).getD 0 := hw
      linarith) hout]
  refine ⟨rfl, ?_, ?_, ?_⟩
  · intro hf
    rw [AMM.price]
    simp only [hpr, hcp, hf]
    rw [uniswapPrice]
    rw [if_neg (by intro hzero; nlinarith [hzero])]
    have hcalc : uniswapCalcOut ((ynew - a.reserve_token) * (1 - 0)) a.reserve_token a.reserve_eth =
        (ynew - a.reserve_token) * a.reserve_eth / ynew := by
      rw [uniswapCalcOut]
      congr 1 <;> ring
    rw [hcalc]
    rw [show a.reserve_token + (ynew - a.reserve_token) = ynew from by ring]
    rw [div_eq_iff (ne_of_gt hynpos)]
    have hnum : a.reserve_eth - (ynew - a.reserve_token) * a.reserve_eth / ynew =
        a.reserve_eth * a.reserve_token / ynew := by
      field_simp
      ring
    rw [hnum, div_eq_iff (ne_of_gt hynpos)]
    linear_combination -hkey
  · simp [blockSet]
  · intro hf
    simp [blockSet]
    nlinarith [mul_pos hdy hf]

/-- Witness for C7: a 19% depeg of `a7` at block 5 succeeds and leaves the spot
price at exactly `spot * (1 - 19/100)`. -/
theorem depeg_realizes_target_witness :
    (depeg sq7 5 w7 a7 (19/100)).1 = .ok () ∧
    ((depeg sq7 5 w7 a7 (19/100)).2.2).price = a7.price * (1 - 19/100) := by
  have H := depeg_cp_realizes_target sq7 5 w7 a7 (19/100) (1000/9) rfl rfl
    (by norm_num [a7, cpAMM]) (by norm_num [a7, cpAMM]) (by norm_num) (by norm_num)
    (by norm_num [a7, cpAMM])
    (by norm_num [w7, emptyWallet, Wallet.token_balance])
    (by norm_num [sq7, a7, cpAMM, AMM.price, uniswapPrice])
    (by norm_num [sq7, a7, cpAMM, AMM.price, uniswapPrice]) (by norm_num)
  exact ⟨H.1, H.2.1 (by norm_num [a7, cpAMM])⟩

/-! ### Success paths of the PSM operations -/

/-- Success path of `PegStabilityModule.deposit_eth`: burn the ETH, mint equal
CT and DS, grow the ETH reserve. -/
theorem psm_deposit_eth_ok (p : PSM) (w : Wallet) (x : ℚ) (hx : 0 < x)
    (hweth : x ≤ w.eth_balance) :
    p.deposit_eth w x =
      (.ok (),
       { w with
         eth_balance := w.eth_balance - x
         token_balances := mapSet
           (mapSet w.token_balances (ctKey p.token_symbol)
             ((w.token_balances (ctKey p.token_symbol)).getD 0 + x))
           (dsKey p.token_symbol)
           ((w.token_balances (dsKey p.token_symbol)).getD 0 + x) },
       { p with eth_reserve := p.eth_reserve + x }) := by
  rw [PSM.deposit_eth, if_neg (not_le.mpr hx), Wallet.withdraw_eth_ok w x hweth]
  simp only []
  rw [Wallet.deposit_token_ok _ _ _ hx.le]
  simp only []
  rw [Wallet.deposit_token_ok _ _ _ hx.le]
  simp only [mapSet_other _ _ _ _ (Ne.symm (ctKey_ne_dsKey p.token_symbol))]

/-- Success path of `redeem_with_ct_and_ds`: burn `n` CT and `n` DS, credit the
net ETH, move the reserves and accumulate the fee. -/
theorem psm_redeem_with_ct_and_ds_ok (p : PSM) (w : Wallet) (n : ℚ) (blk : ℕ) (bct bds : ℚ)
    (hblk : blk ≤ p.expiry_block) (hn : 0 < n)
    (hctk : w.token_balances (ctKey p.token_symbol) = some bct) (hbct : n ≤ bct)
    (hdsk : w.token_balances (dsKey p.token_symbol) = some bds) (hbds : n ≤ bds)
    (hrf1 : p.redemption_fee ≤ 1)
    (hres : n - n * p.redemption_fee ≤ p.eth_reserve) :
    p.redeem_with_ct_and_ds w n blk =
      (.ok (n - n * p.redemption_fee),
       { w with
         eth_balance := w.eth_balance + (n - n * p.redemption_fee)
         token_balances := mapSet
           (mapSet w.token_balances (ctKey p.token_symbol) (bct - n))
           (dsKey p.token_symbol) (bds - n) },
       { p with
         eth_reserve := p.eth_reserve - (n - n * p.redemption_fee)
         token_reserve := p.token_reserve + n
         total_redemption_fee := p.total_redemption_fee + n * p.redemption_fee }) := by
  rw [PSM.redeem_with_ct_and_ds]
  rw [if_neg (by omega)]
  rw [if_neg (not_le.mpr hn)]
  rw [if_neg (by
    push_neg
    simp only [Wallet.token_balance, hctk, hdsk, Option.getD_some]
    exact ⟨hbct, hbds⟩)]
  rw [Wallet.withdraw_token_ok w _ n bct hctk hbct]
  simp only []
  rw [Wallet.withdraw_token_ok
    { w with token_balances := mapSet w.token_balances (ctKey p.token_symbol) (bct - n) }
    (dsKey p.token_symbol) n bds
    (by
      show mapSet w.token_balances (ctKey p.token_symbol) (bct - n) (dsKey p.token_symbol) = some bds
      rw [mapSet_other _ _ _ _ (Ne.symm (ctKey_ne_dsKey p.token_symbol))]
      exact hdsk) hbds]
  simp only []
  rw [if_neg (not_lt.mpr hres)]
  rw [Wallet.deposit_eth_ok _ _ (by nlinarith)]

/-- Success path of `redeem_with_token_and_ds`: identical accounting, burning
the underlying token and DS. -/
theorem psm_redeem_with_token_and_ds_ok (p : PSM) (w : Wallet) (n : ℚ) (blk : ℕ) (bx bds : ℚ)
    (hblk : blk ≤ p.expiry_block) (hn : 0 < n)
    (hxk : w.token_balances p.token_symbol = some bx) (hbx : n ≤ bx)
    (hdsk : w.token_balances (dsKey p.token_symbol) = some bds) (hbds : n ≤ bds)
    (hrf1 : p.redemption_fee ≤ 1)
    (hres : n - n * p.redemption_fee ≤ p.eth_reserve) :
    p.redeem_with_token_and_ds w n blk =
      (.ok (n - n * p.redemption_fee),
       { w with
         eth_balance := w.eth_balance + (n - n * p.redemption_fee)
         token_balances := mapSet
           (mapSet w.token_balances p.token_symbol (bx - n))
           (dsKey p.token_symbol) (bds - n) },
       { p with
         eth_reserve := p.eth_reserve - (n - n * p.redemption_fee)
         token_reserve := p.token_reserve + n
         total_redemption_fee := p.total_redemption_fee + n * p.redemption_fee }) := by
  rw [PSM.redeem_with_token_and_ds]
  rw [if_neg (by omega)]
  rw [if_neg (not_le.mpr hn)]
  rw [if_neg (by
    push_neg
    simp only [Wallet.token_balance, hxk, hdsk, Option.getD_some]
    exact ⟨hbx, hbds⟩)]
  rw [Wallet.withdraw_token_ok w _ n bx hxk hbx]
  simp only []
  rw [Wallet.withdraw_token_ok
    { w with token_balances := mapSet w.token_balances p.token_symbol (bx - n) }
    (dsKey p.token_symbol) n bds
    (by
      show mapSet w.token_balances p.token_symbol (bx - n) (dsKey p.token_symbol) = some bds
      rw [mapSet_other _ _ _ _ (Ne.symm (self_ne_dsKey p.token_symbol))]
      exact hdsk) hbds]
  simp only []
  rw [if_neg (not_lt.mpr hres)]
  rw [Wallet.deposit_eth_ok _ _ (by nlinarith)]

/-- Success path of `redeem_with_ct_post_expiry`: burns only CT, same
accounting, allowed from the expiry block on. -/
theorem psm_redeem_with_ct_post_expiry_ok (p : PSM) (w : Wallet) (n : ℚ) (blk : ℕ) (bct : ℚ)
    (hblk : p.expiry_block ≤ blk) (hn : 0 < n)
    (hctk : w.token_balances (ctKey p.token_symbol) = some bct) (hbct : n ≤ bct)
    (hrf1 : p.redemption_fee ≤ 1)
    (hres : n - n * p.redemption_fee ≤ p.eth_reserve) :
    p.redeem_with_ct_post_expiry w n blk =
      (.ok (n - n * p.redemption_fee),
       { w with
         eth_balance := w.eth_balance + (n - n * p.redemption_fee)
         token_balances := mapSet w.token_balances (ctKey p.token_symbol) (bct - n) },
       { p with
         eth_reserve := p.eth_reserve - (n - n * p.redemption_fee)
         token_reserve := p.token_reserve + n
         total_redemption_fee := p.total_redemption_fee + n * p.redemption_fee }) := by
  rw [PSM.redeem_with_ct_post_expiry]
  rw [if_neg (by omega)]
  rw [if_neg (not_le.mpr hn)]
  rw [if_neg (by
    push_neg
    simp only [Wallet.token_balance, hctk, Option.getD_some]
    exact hbct)]
  rw [Wallet.withdraw_token_ok w _ n bct hctk hbct]
  simp only []
  rw [if_neg (not_lt.mpr hres)]
  rw [Wallet.deposit_eth_ok _ _ (by nlinarith)]

/-! ### C6 — deposit followed by redemption -/

/-- C6 (amended): for every wallet holding at least `x` ETH (and nonnegative
CT/DS balances), every `x > 0` and block `b ≤ expiry_block`, with nonnegative
fee and reserve — which make the redemption's reserve check automatic —
`deposit_eth(w, x)` followed by `redeem_with_ct_and_ds(w, x, b)` succeeds, the
redemption credits exactly `x * (1 - redemption_fee)` ETH, the token reserve
grows by exactly `x` over the pair, and `total_redemption_fee` grows by
`x * redemption_fee`. -/
theorem psm_deposit_redeem_roundtrip (p : PSM) (w : Wallet) (x : ℚ) (b : ℕ)
    (hx : 0 < x) (hweth : x ≤ w.eth_balance) (hb : b ≤ p.expiry_block)
    (hrf0 : 0 ≤ p.redemption_fee) (hrf1 : p.redemption_fee ≤ 1)
    (hres : 0 ≤ p.eth_reserve)
    (hct0 : 0 ≤ w.token_balance (ctKey p.token_symbol))
    (hds0 : 0 ≤ w.token_balance (dsKey p.token_symbol)) :
    (p.deposit_eth w x).1 = .ok () ∧
    (let d := p.deposit_eth w x
     let r := PSM.redeem_with_ct_and_ds d.2.2 d.2.1 x b
     r.1 = .ok (x - x * p.redemption_fee) ∧
     (r.2.1).eth_balance = w.eth_balance - x + (x - x * p.redemption_fee) ∧
     (r.2.2).token_reserve = p.token_reserve + x ∧
     (r.2.2).total_redemption_fee = p.total_redemption_fee + x * p.redemption_fee) := by
  have hdep := psm_deposit_eth_ok p w x hx hweth
  have hct0g : 0 ≤ (w.token_balances (ctKey p.token_symbol)).getD 0 := by
    rw [Wallet.token_balance] at hct0
    exact hct0
  have hds0g : 0 ≤ (w.token_balances (dsKey p.token_symbol)).getD 0 := by
    rw [Wallet.token_balance] at hds0
    exact hds0
  have hred := psm_redeem_with_ct_and_ds_ok
    { p with eth_reserve := p.eth_reserve + x }
    { w with
      eth_balance := w.eth_balance - x
      token_balances := mapSet
        (mapSet w.token_balances (ctKey p.token_symbol)
          ((w.token_balances (ctKey p.token_symbol)).getD 0 + x))
        (dsKey p.token_symbol)
        ((w.token_balances (dsKey p.token_symbol)).getD 0 + x) }
    x b
    ((w.token_balances (ctKey p.token_symbol)).getD 0 + x)
    ((w.token_balances (dsKey p.token_symbol)).getD 0 + x)
    hb hx
    (by
      show mapSet
        (mapSet w.token_balances (ctKey p.token_symbol)
          ((w.token_balances (ctKey p.token_symbol)).getD 0 + x))
        (dsKey p.token_symbol)
        ((w.token_balances (dsKey p.token_symbol)).getD 0 + x)
        (ctKey p.token_symbol) = some ((w.token_balances (ctKey p.token_symbol)).getD 0 + x)
      rw [mapSet_other _ _ _ _ (ctKey_ne_dsKey p.token_symbol), mapSet_same])
    (by linarith)
    (by
      show mapSet
        (mapSet w.token_balances (ctKey p.token_symbol)
          ((w.token_balances (ctKey p.token_symbol)).getD 0 + x))
        (dsKey p.token_symbol)
        ((w.token_balances (dsKey p.token_symbol)).getD 0 + x)
        (dsKey p.token_symbol) = some ((w.token_balances (dsKey p.token_symbol)).getD 0 + x)
      rw [mapSet_same])
    (by linarith)
    hrf1
    (by
      show x - x * p.redemption_fee ≤ p.eth_reserve + x
      nlinarith)
  refine ⟨by rw [hdep], ?_⟩
  simp only [hdep]
  rw [hred]
  exact ⟨rfl, rfl, rfl, rfl⟩

/-- Counterexample for C6: the claim quantifies over every wallet, but for a
wallet without the `x` ETH the deposit fails with `InsufficientBalance`, the
redemption then fails too (no CT was minted), no ETH is credited and the token
reserve does not grow — even though `x > 0`, `b ≤ expiry_block` and the PSM's
ETH reserve is ample, as the claim requires. -/
theorem psm_roundtrip_counterexample :
    (0:ℚ) < 1 ∧ (0:ℕ) ≤ psm0.expiry_block ∧
    1 - 1 * psm0.redemption_fee ≤ psm0.eth_reserve ∧
    (psm0.deposit_eth w6c 1).1 = .error .insufficientBalance ∧
    (let d := psm0.deposit_eth w6c 1
     let r := PSM.redeem_with_ct_and_ds d.2.2 d.2.1 1 0
     r.1 = .error .insufficientBalance ∧
     (r.2.1).eth_balance ≠ w6c.eth_balance - 1 + (1 - 1 * psm0.redemption_fee) ∧
     (r.2.2).token_reserve ≠ psm0.token_reserve + 1) := by
  refine ⟨by norm_num, by norm_num [psm0], by norm_num [psm0], ?_, ?_⟩
  · norm_num [PSM.deposit_eth, Wallet.withdraw_eth, w6c, emptyWallet, psm0]
  · norm_num [PSM.deposit_eth, Wallet.withdraw_eth, PSM.redeem_with_ct_and_ds,
      Wallet.token_balance, w6c, emptyWallet, psm0, ctKeyX, dsKeyX]

/-- Witness for C6: a wallet holding 10 ETH deposits 1 into `psm0` and redeems
it at block 0, receiving `1 - 1 * (1/1000)` ETH back. -/
theorem psm_deposit_redeem_roundtrip_witness :
    (psm0.deposit_eth { emptyWallet "lp" with eth_balance := 10 } 1).1 = .ok () ∧
    (let d := psm0.deposit_eth { emptyWallet "lp" with eth_balance := 10 } 1
     let r := PSM.redeem_with_ct_and_ds d.2.2 d.2.1 1 0
     r.1 = .ok (1 - 1 * psm0.redemption_fee) ∧
     (r.2.1).eth_balance =
       ({ emptyWallet "lp" with eth_balance := 10 } : Wallet).eth_balance - 1 +
         (1 - 1 * psm0.redemption_fee) ∧
     (r.2.2).token_reserve = psm0.token_reserve + 1 ∧
     (r.2.2).total_redemption_fee = psm0.total_redemption_fee + 1 * psm0.redemption_fee) :=
  psm_deposit_redeem_roundtrip psm0 { emptyWallet "lp" with eth_balance := 10 } 1 0
    (by norm_num) (by norm_num [emptyWallet]) (by norm_num [psm0])
    (by norm_num [psm0]) (by norm_num [psm0]) (by norm_num [psm0])
    (by norm_num [emptyWallet, Wallet.token_balance])
    (by norm_num [emptyWallet, Wallet.token_balance])

/-- Failure path of `redeem_with_ct_and_ds` at the reserve check: the phase,
sign and balance checks pass, both tokens are withdrawn, and then the reserve
check raises `InsufficientReserve`, leaving the withdrawal in place. -/
theorem psm_redeem_ct_ds_reserve_fail (p : PSM) (w : Wallet) (n : ℚ) (blk : ℕ)
    (bct bds : ℚ)
    (hblk : blk ≤ p.expiry_block) (hn : 0 < n)
    (hctk : w.token_balances (ctKey p.token_symbol) = some bct) (hbct : n ≤ bct)
    (hdsk : w.token_balances (dsKey p.token_symbol) = some bds) (hbds : n ≤ bds)
    (hres : p.eth_reserve < n * (1 - p.redemption_fee)) :
    p.redeem_with_ct_and_ds w n blk =
      (.error .insufficientReserve,
       { w with
         token_balances := mapSet
           (mapSet w.token_balances (ctKey p.token_symbol) (bct - n))
           (dsKey p.token_symbol) (bds - n) },
       p) := by
  rw [PSM.redeem_with_ct_and_ds]
  rw [if_neg (by omega)]
  rw [if_neg (not_le.mpr hn)]
  rw [if_neg (by
    push_neg
    simp only [Wallet.token_balance, hctk, hdsk, Option.getD_some]
    exact ⟨hbct, hbds⟩)]
  rw [Wallet.withdraw_token_ok w _ n bct hctk hbct]
  simp only []
  rw [Wallet.withdraw_token_ok
    { w with token_balances := mapSet w.token_balances (ctKey p.token_symbol) (bct - n) }
    (dsKey p.token_symbol) n bds
    (by
      show mapSet w.token_balances (ctKey p.token_symbol) (bct - n) (dsKey p.token_symbol) = some bds
      rw [mapSet_other _ _ _ _ (Ne.symm (ctKey_ne_dsKey p.token_symbol))]
      exact hdsk) hbds]
  simp only []
  rw [if_pos (by nlinarith)]

/-! ### C8 — expiry-boundary behaviour of the redemptions -/

/-- Counterexample for C8: at `current_block = expiry_block`, with plenty of
tokens in the wallet and a positive amount, `redeem_with_ct_and_ds` does NOT
succeed when the PSM's ETH reserve cannot cover the net amount — it fails with
`InsufficientReserve` — so the claim needs the reserve-sufficiency hypothesis. -/
theorem redeem_at_expiry_counterexample :
    (0:ℚ) < 5 ∧
    (PSM.redeem_with_ct_and_ds psm8dry w8 5 psm8dry.expiry_block).1 =
      .error .insufficientReserve := by
  refine ⟨by norm_num, ?_⟩
  rw [psm_redeem_ct_ds_reserve_fail psm8dry w8 5 psm8dry.expiry_block 5 5
    le_rfl (by norm_num)
    (by norm_num [w8, emptyWallet, psm8dry, psm0, ctKeyX, dsKeyX]) (by norm_num)
    (by norm_num [w8, emptyWallet, psm8dry, psm0, ctKeyX, dsKeyX]) (by norm_num)
    (by norm_num [psm8dry, psm0])]

/-- C8 (amended): for every wallet with sufficient token balances, positive
amount, fee at most 1, and a PSM ETH reserve covering the net amount, both
pre-expiry redemptions succeed at `current_block = expiry_block` and fail with
`WrongPhase` at `expiry_block + 1`, and the post-expiry redemption succeeds at
`current_block = expiry_block`. -/
theorem redemption_phase_boundaries (p : PSM) (w : Wallet) (n : ℚ) (bct bds bx : ℚ)
    (hn : 0 < n)
    (hctk : w.token_balances (ctKey p.token_symbol) = some bct) (hbct : n ≤ bct)
    (hdsk : w.token_balances (dsKey p.token_symbol) = some bds) (hbds : n ≤ bds)
    (hxk : w.token_balances p.token_symbol = some bx) (hbx : n ≤ bx)
    (hrf1 : p.redemption_fee ≤ 1)
    (hres : n - n * p.redemption_fee ≤ p.eth_reserve) :
    (p.redeem_with_ct_and_ds w n p.expiry_block).1 = .ok (n - n * p.redemption_fee) ∧
    (p.redeem_with_ct_and_ds w n (p.expiry_block + 1)).1 = .error .wrongPhase ∧
    (p.redeem_with_token_and_ds w n p.expiry_block).1 = .ok (n - n * p.redemption_fee) ∧
    (p.redeem_with_token_and_ds w n (p.expiry_block + 1)).1 = .error .wrongPhase ∧
    (p.redeem_with_ct_post_expiry w n p.expiry_block).1 = .ok (n - n * p.redemption_fee) := by
  refine ⟨?_, ?_, ?_, ?_, ?_⟩
  · rw [psm_redeem_with_ct_and_ds_ok p w n p.expiry_block bct bds le_rfl hn
      hctk hbct hdsk hbds hrf1 hres]
  · rw [PSM.redeem_with_ct_and_ds, if_pos (by omega)]
  · rw [psm_redeem_with_token_and_ds_ok p w n p.expiry_block bx bds le_rfl hn
      hxk hbx hdsk hbds hrf1 hres]
  · rw [PSM.redeem_with_token_and_ds, if_pos (by omega)]
  · rw [psm_redeem_with_ct_post_expiry_ok p w n p.expiry_block bct le_rfl hn
      hctk hbct hrf1 hres]

/-- Witness for C8: on `psm0` (reserve 100) the wallet `w8` redeems 5 at the
expiry block through every phase-legal path and is refused one block later. -/
theorem redemption_phase_boundaries_witness :
    (psm0.redeem_with_ct_and_ds w8 5 psm0.expiry_block).1 =
      .ok (5 - 5 * psm0.redemption_fee) ∧
    (psm0.redeem_with_ct_and_ds w8 5 (psm0.expiry_block + 1)).1 = .error .wrongPhase ∧
    (psm0.redeem_with_token_and_ds w8 5 psm0.expiry_block).1 =
      .ok (5 - 5 * psm0.redemption_fee) ∧
    (psm0.redeem_with_token_and_ds w8 5 (psm0.expiry_block + 1)).1 = .error .wrongPhase ∧
    (psm0.redeem_with_ct_post_expiry w8 5 psm0.expiry_block).1 =
      .ok (5 - 5 * psm0.redemption_fee) :=
  redemption_phase_boundaries psm0 w8 5 5 5 5
    (by norm_num)
    (by norm_num [w8, emptyWallet, psm0, ctKeyX, dsKeyX]) (by norm_num)
    (by norm_num [w8, emptyWallet, psm0, ctKeyX, dsKeyX]) (by norm_num)
    (by norm_num [w8, emptyWallet, psm0]) (by norm_num)
    (by norm_num [psm0]) (by norm_num [psm0])

/-! ### C10 — a failed reserve check keeps the token withdrawal -/

/-- C10: in `redeem_with_ct_and_ds` the CT and DS are withdrawn before the
ETH-reserve check, so when the call at a pre-expiry block fails because
`n * (1 - redemption_fee)` exceeds the reserve, the error is
`InsufficientReserve`, both token balances are already reduced by `n`, no ETH
was credited, and the PSM is exactly unchanged. -/
theorem redeem_reserve_failure_keeps_withdrawal (p : PSM) (w : Wallet) (n : ℚ) (blk : ℕ)
    (bct bds : ℚ)
    (hblk : blk ≤ p.expiry_block) (hn : 0 < n)
    (hctk : w.token_balances (ctKey p.token_symbol) = some bct) (hbct : n ≤ bct)
    (hdsk : w.token_balances (dsKey p.token_symbol) = some bds) (hbds : n ≤ bds)
    (hres : p.eth_reserve < n * (1 - p.redemption_fee)) :
    (p.redeem_with_ct_and_ds w n blk).1 = .error .insufficientReserve ∧
    ((p.redeem_with_ct_and_ds w n blk).2.1).token_balance (ctKey p.token_symbol) = bct - n ∧
    ((p.redeem_with_ct_and_ds w n blk).2.1).token_balance (dsKey p.token_symbol) = bds - n ∧
    ((p.redeem_with_ct_and_ds w n blk).2.1).eth_balance = w.eth_balance ∧
    (p.redeem_with_ct_and_ds w n blk).2.2 = p := by
  have heq := psm_redeem_ct_ds_reserve_fail p w n blk bct bds hblk hn hctk hbct hdsk hbds hres
  rw [heq]
  refine ⟨rfl, ?_, ?_, rfl, rfl⟩
  · show (mapSet (mapSet w.token_balances (ctKey p.token_symbol) (bct - n))
      (dsKey p.token_symbol) (bds - n) (ctKey p.token_symbol)).getD 0 = bct - n
    rw [mapSet_other _ _ _ _ (ctKey_ne_dsKey p.token_symbol), mapSet_same]
    rfl
  · show (mapSet (mapSet w.token_balances (ctKey p.token_symbol) (bct - n))
      (dsKey p.token_symbol) (bds - n) (dsKey p.token_symbol)).getD 0 = bds - n
    rw [mapSet_same]
    rfl

/-- Witness for C10: on a PSM whose ETH reserve is 1, redeeming 5 at block 1
fails with `InsufficientReserve` while the wallet's CT and DS drop from 5 to 0,
its ETH stays put, and the PSM is untouched. -/
theorem redeem_reserve_failure_witness :
    ((({ psm0 with eth_reserve := 1 } : PSM).redeem_with_ct_and_ds w8 5 1).1 =
      .error .insufficientReserve) ∧
    ((({ psm0 with eth_reserve := 1 } : PSM).redeem_with_ct_and_ds w8 5 1).2.1).token_balance
      (ctKey "X") = 5 - 5 ∧
    ((({ psm0 with eth_reserve := 1 } : PSM).redeem_with_ct_and_ds w8 5 1).2.2) =
      { psm0 with eth_reserve := 1 } :=
  have H := redeem_reserve_failure_keeps_withdrawal { psm0 with eth_reserve := 1 } w8 5 1 5 5
    (by norm_num [psm0]) (by norm_num)
    (by norm_num [w8, emptyWallet, psm0, ctKeyX, dsKeyX]) (by norm_num)
    (by norm_num [w8, emptyWallet, psm0, ctKeyX, dsKeyX]) (by norm_num)
    (by norm_num [psm0])
  ⟨H.1, H.2.1, H.2.2.2.2⟩

/-! ### C2 — the vault's total value misses its CT/ETH LP position -/

/-- The symbol `X` differs from the literal coverage key. -/
theorem sX_ne_ct : ("X" : String) ≠ "CT_X" := by decide

/-- The literal depeg-swap key differs from the literal coverage key. -/
theorem sDS_ne_ct : ("DS_X" : String) ≠ "CT_X" := by decide

/-- The symbol `X` differs from the literal depeg-swap key. -/
theorem sX_ne_ds : ("X" : String) ≠ "DS_X" := by decide

/-- C2 (code bug): after the CT/ETH liquidity provision the vault wallet holds
10 LP shares under the pool's key `CT_X`, yet `_get_total_vault_value` reads
`lpt_balance(token_symbol)` — the key `X`, where the balance is 0 — so the
code's total (`17/2`) omits the `(R_eth_ct / total_shares_ct) * ct_lp_shares`
term the claim describes, while the claim's formula
(`total_vault_value_claim`) gives `37/2`; consequently `_issue_lp_tokens` for a
17-ETH deposit mints `17 / (17/2) * 100 = 200` shares rather than the claimed
`17 / (37/2) * 100`. -/
theorem vault_value_misses_ct_lp_position :
    addLiq2.1 = .ok () ∧
    s2ex.vaultWallet.lpt_balance (ctKey "X") = 10 ∧
    s2ex.vaultWallet.lpt_balance "X" = 0 ∧
    VState.get_total_vault_value s2ex = 17/2 ∧
    VState.total_vault_value_claim s2ex = 37/2 ∧
    VState.get_total_vault_value s2ex ≠ VState.total_vault_value_claim s2ex ∧
    (VState.issue_lp_tokens s2ex s2ex.investor 17).2.1.lp_token_supply = 100 + 200 ∧
    (200 : ℚ) ≠ (17 / VState.total_vault_value_claim s2ex) * 100 := by
  refine ⟨?_, ?_, ?_, ?_, ?_, ?_, ?_, ?_⟩ <;>
    norm_num [addLiq2, s2ex, AMM.add_liquidity, Wallet.withdraw_eth, Wallet.withdraw_token,
      Wallet.deposit_lpt, AMM.calculate_lpt_mint, mapSet, w2v, ctA2, dsA2, cpAMM, emptyWallet,
      Wallet.lpt_balance, Wallet.token_balance, AMM.price, uniswapPrice,
      VState.get_total_vault_value, VState.total_vault_value_claim, VState.issue_lp_tokens,
      ctKeyX, dsKeyX, sX_ne_ct, sDS_ne_ct, sX_ne_ds]

/-! ### C5 — the ETH spent on the first buy-back swap in sell_ds -/

set_option maxHeartbeats 800000 in
/-- Success path of `sell_ds` down to the computation of the first buy-back
swap amount: with the dry run positive, no capping, a funded investor,
nonnegative vault balances, the CT symbol registered, a pre-expiry block and a
sufficient PSM reserve, the ETH prepared for the first swap is the net PSM
redemption proceeds grossed up by the CT price and the CT-pool fee. -/
theorem sell_ds_first_swap_spend_core (s : VState) (n bds : ℚ)
    (hsym : s.psm.token_symbol = s.token_symbol)
    (h0 : 0 < VState.calculate_sell_ds_outcome s n)
    (hcap1 : n ≤ s.ct_eth_amm.reserve_token)
    (hcap2 : n * s.ds_eth_amm.price ≤ s.ds_eth_amm.reserve_eth)
    (hn : 0 < n)
    (hinv : s.investor.token_balances (dsKey s.token_symbol) = some bds)
    (hbds : n ≤ bds)
    (hvds0 : 0 ≤ (s.vaultWallet.token_balances (dsKey s.token_symbol)).getD 0)
    (hvct0 : 0 ≤ (s.vaultWallet.token_balances (ctKey s.token_symbol)).getD 0)
    (hreg : s.chain.tokens.any (fun q => q.1 == ctKey s.token_symbol) = true)
    (hblk : s.chain.current_block ≤ s.psm.expiry_block)
    (hrf1 : s.psm.redemption_fee ≤ 1)
    (hres : n - n * s.psm.redemption_fee ≤ s.psm.eth_reserve) :
    sell_ds_first_swap_spend s n =
      .ok ((n - n * s.psm.redemption_fee) * s.ct_eth_amm.price / (1 - s.ct_eth_amm.fee)) := by
  delta sell_ds_first_swap_spend sell_ds_to_first_swap
  rw [if_neg (not_le.mpr h0)]
  rw [if_neg (by
    push_neg
    exact ⟨hcap1, hcap2⟩)]
  rw [Wallet.withdraw_token_ok s.investor (dsKey s.token_symbol) n bds hinv hbds]
  simp only []
  rw [Wallet.deposit_token_ok s.vaultWallet (dsKey s.token_symbol) n hn.le]
  simp only []
  rw [Chain.borrow_token]
  rw [if_neg (not_le.mpr hn)]
  rw [if_neg (not_not_intro hreg)]
  rw [Wallet.deposit_token_ok
    { s.vaultWallet with
      token_balances := mapSet s.vaultWallet.token_balances (dsKey s.token_symbol)
        ((s.vaultWallet.token_balances (dsKey s.token_symbol)).getD 0 + n) }
    (ctKey s.token_symbol) n hn.le]
  simp only []
  rw [psm_redeem_with_ct_and_ds_ok s.psm
    { s.vaultWallet with
      token_balances := mapSet
        (mapSet s.vaultWallet.token_balances (dsKey s.token_symbol)
          ((s.vaultWallet.token_balances (dsKey s.token_symbol)).getD 0 + n))
        (ctKey s.token_symbol)
        ((mapSet s.vaultWallet.token_balances (dsKey s.token_symbol)
          ((s.vaultWallet.token_balances (dsKey s.token_symbol)).getD 0 + n)
          (ctKey s.token_symbol)).getD 0 + n) }
    n s.chain.current_block
    ((mapSet s.vaultWallet.token_balances (dsKey s.token_symbol)
      ((s.vaultWallet.token_balances (dsKey s.token_symbol)).getD 0 + n)
      (ctKey s.token_symbol)).getD 0 + n)
    ((s.vaultWallet.token_balances (dsKey s.token_symbol)).getD 0 + n)
    hblk hn
    (by
      rw [hsym]
      exact mapSet_same ..)
    (by
      rw [mapSet_other _ _ _ _ (ctKey_ne_dsKey s.token_symbol)]
      linarith)
    (by
      rw [hsym]
      show mapSet
        (mapSet s.vaultWallet.token_balances (dsKey s.token_symbol)
          ((s.vaultWallet.token_balances (dsKey s.token_symbol)).getD 0 + n))
        (ctKey s.token_symbol)
        ((mapSet s.vaultWallet.token_balances (dsKey s.token_symbol)
          ((s.vaultWallet.token_balances (dsKey s.token_symbol)).getD 0 + n)
          (ctKey s.token_symbol)).getD 0 + n)
        (dsKey s.token_symbol) =
        some ((s.vaultWallet.token_balances (dsKey s.token_symbol)).getD 0 + n)
      rw [mapSet_other _ _ _ _ (Ne.symm (ctKey_ne_dsKey s.token_symbol)), mapSet_same])
    (by linarith)
    hrf1 hres]

/-- C5 (amended): under the conditions that let `sell_ds` reach its first
buy-back swap — dry run positive, no capping, a funded investor, nonnegative
vault balances, the CT symbol registered, a pre-expiry block and a sufficient
PSM reserve — the ETH spent on that swap equals
`(n - n * redemption_fee) * ct_price / (1 - f_ct)`: the source grosses up the
net PSM redemption proceeds `eth_from_ds`, not the borrowed CT amount, by the
CT price and fee.  (`hsym` records that the vault and its PSM serve the same
token symbol, as `Blockchain.add_token` guarantees.) -/
theorem sell_ds_first_swap_spend_eq (s : VState) (n bds : ℚ)
    (hsym : s.psm.token_symbol = s.token_symbol)
    (h0 : 0 < VState.calculate_sell_ds_outcome s n)
    (hcap1 : n ≤ s.ct_eth_amm.reserve_token)
    (hcap2 : n * s.ds_eth_amm.price ≤ s.ds_eth_amm.reserve_eth)
    (hn : 0 < n)
    (hinv : s.investor.token_balances (dsKey s.token_symbol) = some bds)
    (hbds : n ≤ bds)
    (hvds0 : 0 ≤ (s.vaultWallet.token_balances (dsKey s.token_symbol)).getD 0)
    (hvct0 : 0 ≤ (s.vaultWallet.token_balances (ctKey s.token_symbol)).getD 0)
    (hreg : s.chain.tokens.any (fun q => q.1 == ctKey s.token_symbol) = true)
    (hblk : s.chain.current_block ≤ s.psm.expiry_block)
    (hrf1 : s.psm.redemption_fee ≤ 1)
    (hres : n - n * s.psm.redemption_fee ≤ s.psm.eth_reserve) :
    sell_ds_first_swap_spend s n =
      .ok ((n - n * s.psm.redemption_fee) * s.ct_eth_amm.price / (1 - s.ct_eth_amm.fee)) :=
  sell_ds_first_swap_spend_core s n bds hsym h0 hcap1 hcap2 hn hinv hbds hvds0 hvct0
    hreg hblk hrf1 hres

/-- Counterexample for C5 as stated: on `s5ex` (redemption fee `1/1000`,
CT spot `1/2`, no CT-pool fee) a `sell_ds` of 10 DS spends `999/200` ETH on the
first buy-back swap, not the claimed
`borrowed_ct * ct_price / (1 - f_ct) = 10 * (1/2) / 1 = 5`. -/
theorem sell_ds_first_swap_spend_counterexample :
    sell_ds_first_swap_spend s5ex 10 = .ok (999/200) ∧
    (999/200 : ℚ) ≠ 10 * s5ex.ct_eth_amm.price / (1 - s5ex.ct_eth_amm.fee) := by
  constructor
  · have H := sell_ds_first_swap_spend_core s5ex 10 20 rfl
      (by norm_num [VState.calculate_sell_ds_outcome, AMM.calculate_slippage, AMM.price,
        uniswapPrice, uniswapCalcOut, cpAMM, s5ex])
      (by norm_num [s5ex, cpAMM])
      (by norm_num [s5ex, cpAMM, AMM.price, uniswapPrice])
      (by norm_num)
      (by norm_num [s5ex, emptyWallet, dsKeyX]) (by norm_num)
      (by norm_num [s5ex, emptyWallet, dsKeyX]) (by norm_num [s5ex, emptyWallet, ctKeyX])
      (by norm_num [s5ex, chain0, ctKeyX]) (by norm_num [s5ex, chain0, psm0])
      (by norm_num [s5ex, psm0]) (by norm_num [s5ex, psm0])
    rw [H]
    norm_num [s5ex, psm0, cpAMM, AMM.price, uniswapPrice]
  · norm_num [s5ex, cpAMM, AMM.price, uniswapPrice]

/-- Witness for C5 (amended): the same instantiation, read off as the amended
formula: the spend equals `(10 - 10 * (1/1000)) * (1/2) / (1 - 0)`. -/
theorem sell_ds_first_swap_spend_witness :
    sell_ds_first_swap_spend s5ex 10 =
      .ok ((10 - 10 * s5ex.psm.redemption_fee) * s5ex.ct_eth_amm.price /
        (1 - s5ex.ct_eth_amm.fee)) :=
  sell_ds_first_swap_spend_eq s5ex 10 20 rfl
    (by norm_num [VState.calculate_sell_ds_outcome, AMM.calculate_slippage, AMM.price,
      uniswapPrice, uniswapCalcOut, cpAMM, s5ex])
    (by norm_num [s5ex, cpAMM])
    (by norm_num [s5ex, cpAMM, AMM.price, uniswapPrice])
    (by norm_num)
    (by norm_num [s5ex, emptyWallet, dsKeyX]) (by norm_num)
    (by norm_num [s5ex, emptyWallet, dsKeyX]) (by norm_num [s5ex, emptyWallet, ctKeyX])
    (by norm_num [s5ex, chain0, ctKeyX]) (by norm_num [s5ex, chain0, psm0])
    (by norm_num [s5ex, psm0]) (by norm_num [s5ex, psm0])

/-- Witness for C4: on the empty ledger of `c3ex` the check passes, every total
being `≤ 0`, and borrowing 1 ETH into a fresh wallet makes it fail. -/
theorem end_of_block_debt_check_witness :
    (0:ℚ) ≤ c3ex.total_borrowed_eth ∧
    (Chain.check_borrowings_repaid c3ex = .ok () ↔
      c3ex.total_borrowed_eth ≤ 0 ∧ ∀ q ∈ c3ex.total_borrowed_token, q.2 ≤ 0) ∧
    Chain.check_borrowings_repaid ((c3ex.borrow_eth (emptyWallet "agent") 1).2.1) =
      .error .outstandingDebt := by
  have h : (0:ℚ) ≤ c3ex.total_borrowed_eth := by norm_num [c3ex]
  exact ⟨h, end_of_block_debt_check_strict c3ex (emptyWallet "agent") h⟩

end CorkSim
